import Mathlib

/-!
Verification development for the FileReceiverCR record-reconciliation and
currency-normalization ETL engine.  The definitions below are a shallow
embedding of `app/services/processors/bank_accounts.py` and
`app/services/processors/zaimy.py` together with the warehouse model of
`app/db/models_maket.py`.  Monetary amounts (Python `Decimal` and `float`
values, both exact on the inputs that occur here) are embedded as `ℚ`;
fallible Python code is embedded with `Except`; the database session is
embedded as explicit state (`committed` and `current` copies of the store,
with `flush`/`commit`/`rollback` acting on them) and storage faults are
injected through an oracle `faults : Nat → Bool` indexed by the running
count of flush/commit operations.
-/

set_option maxHeartbeats 1000000
set_option maxRecDepth 2048

namespace FileReceiver

/-- Exception classes raised by the embedded Python fragments.  `dbError`
stands for storage-layer failures surfaced at a flush/commit. -/
inductive PErr where
  | valueError
  | typeError
  | invalidOperation
  | attributeError
  | dbError
deriving DecidableEq, Repr

instance {ε α : Type} [DecidableEq ε] [DecidableEq α] : DecidableEq (Except ε α) := fun x y =>
  match x, y with
  | .ok a, .ok b =>
    if h : a = b then .isTrue (by rw [h]) else .isFalse (fun hc => h (by cases hc; rfl))
  | .error e, .error f =>
    if h : e = f then .isTrue (by rw [h]) else .isFalse (fun hc => h (by cases hc; rfl))
  | .ok _, .error _ => .isFalse (fun hc => by cases hc)
  | .error _, .ok _ => .isFalse (fun hc => by cases hc)

/-!
Exact rational arithmetic, written through `mkRat`, `Rat.num` and
`Rat.den` rather than through the `@[irreducible]` field operations, so
that every definition below evaluates by kernel reduction.  The bridging
lemmas `qAdd_eq`, `qMul_eq` and `qNeg_eq` below identify them with the
standard operations on `ℚ`.
-/

/-- Exact rational addition. -/
def qAdd (a b : ℚ) : ℚ :=
  mkRat (a.num * b.den + b.num * a.den) (a.den * b.den)

/-- Exact rational multiplication. -/
def qMul (a b : ℚ) : ℚ :=
  mkRat (a.num * b.num) (a.den * b.den)

/-- Exact rational negation. -/
def qNeg (a : ℚ) : ℚ :=
  mkRat (-a.num) a.den

/-- Embedding of an integer into `ℚ`. -/
def intQ (n : Int) : ℚ :=
  mkRat n 1

/-- Embedding of a natural number into `ℚ`. -/
def natQ (n : Nat) : ℚ :=
  mkRat n 1


/-- Calendar date (`datetime.date`). -/
structure PDate where
  year : Nat
  month : Nat
  day : Nat
deriving DecidableEq, Repr

/-- Python runtime values as they occur in the JSON records and in the
warehouse rows: `None`, `int`, `str`, `Decimal`, `float` and
`datetime.date`.  `Decimal` and `float` are both carried as exact
rationals. -/
inductive PyVal where
  | none
  | int (n : Int)
  | str (s : String)
  | dec (q : ℚ)
  | float (q : ℚ)
  | date (d : PDate)
deriving DecidableEq, Repr

/-- Numeric view of a value (Python compares `int`, `float` and `Decimal`
across types by numeric value). -/
def PyVal.numVal : PyVal → Option ℚ
  | .int n => some (intQ n)
  | .dec q => some q
  | .float q => some q
  | _ => Option.none

/-- Python `==` on the embedded values: numeric values compare by value
across numeric types, strings compare as strings, `None` equals only
`None`, and mixed kinds are unequal. -/
def pyEq (a b : PyVal) : Bool :=
  match a.numVal, b.numVal with
  | some x, some y => x == y
  | _, _ =>
    match a, b with
    | .none, .none => true
    | .str s, .str t => s == t
    | .date d, .date e => d == e
    | _, _ => false

/-- Python truthiness test (`if not x`): `None`, `0`, `0.0`, `Decimal(0)`
and the empty string are falsy. -/
def pyFalsy : PyVal → Bool
  | .none => true
  | .int n => n == 0
  | .str s => s == ""
  | .dec q => q == 0
  | .float q => q == 0
  | .date _ => false

/-- Decimal digit character. -/
def digitChar (n : Nat) : Char :=
  Char.ofNat (48 + n % 10)

/-- Decimal digits of `n`, least significant first, with bounded fuel so
the definition reduces shallowly (20 digits covers every number occurring
here). -/
def natDigitsRev : Nat → Nat → List Char
  | 0, _ => []
  | fuel + 1, n => if n == 0 then [] else digitChar n :: natDigitsRev fuel (n / 10)

/-- Decimal rendering of a natural number. -/
def natToStr (n : Nat) : String :=
  if n == 0 then "0" else String.mk (natDigitsRev 20 n).reverse

/-- Decimal rendering of an integer. -/
def intToStr (i : Int) : String :=
  if i < 0 then "-" ++ natToStr i.natAbs else natToStr i.natAbs

/-- Rendering of an exact rational (stands in for `str` on `Decimal` and
`float` values; only ever applied where the result is not compared). -/
def ratToStr (q : ℚ) : String :=
  intToStr q.num ++ (if q.den == 1 then "" else "/" ++ natToStr q.den)

/-- Python `str(x)`.  Only the `None`, `int` and `str` cases are exercised
by the processors on realistic records (loan ids); the numeric renderings
are a definite but approximate stand-in. -/
def pyStr : PyVal → String
  | .none => "None"
  | .int n => intToStr n
  | .str s => s
  | .dec q => ratToStr q
  | .float q => ratToStr q
  | .date d => natToStr d.year ++ "-" ++ natToStr d.month ++ "-" ++ natToStr d.day

/-- Whitespace characters stripped by Python `str.strip()` / numeric
constructors. -/
def isPySpace (c : Char) : Bool :=
  c == ' ' || c == '\t' || c == '\n' || c == '\x0d' || c == '\x0b' || c == '\x0c'

/-- Strip leading and trailing whitespace from a character list. -/
def stripChars (cs : List Char) : List Char :=
  ((cs.dropWhile isPySpace).reverse.dropWhile isPySpace).reverse

/-- Value of a digit string. -/
def digitsToNat (cs : List Char) : Nat :=
  cs.foldl (fun acc c => acc * 10 + (c.toNat - '0'.toNat)) 0

/-- Nonempty all-digit character list. -/
def allDigits (cs : List Char) : Bool :=
  !cs.isEmpty && cs.all (·.isDigit)

/-- Unsigned decimal literal: digits with at most one dot, at least one
digit overall (`"1."` and `".5"` are accepted, `"1 234.56"` is not). -/
def parseUnsigned (cs : List Char) : Option ℚ :=
  match cs.splitOn '.' with
  | [ip] => if allDigits ip then some (natQ (digitsToNat ip)) else Option.none
  | [ip, fp] =>
      if ip.all (·.isDigit) && fp.all (·.isDigit) && (!ip.isEmpty || !fp.isEmpty) then
        some (qAdd (natQ (digitsToNat ip)) (mkRat (digitsToNat fp) (10 ^ fp.length)))
      else Option.none
  | _ => Option.none

/-- Optionally signed decimal literal. -/
def parseSigned (cs : List Char) : Option ℚ :=
  match cs with
  | '-' :: rest => (parseUnsigned rest).map (fun q => qNeg q)
  | '+' :: rest => parseUnsigned rest
  | _ => parseUnsigned cs

/-- The common numeric-string grammar accepted by Python `float(s)` and
`Decimal(s)` on the fragment relevant here: surrounding whitespace, an
optional sign, digits and at most one decimal point.  Commas, interior
spaces and other junk are rejected. -/
def numOfString (s : String) : Option ℚ :=
  parseSigned (stripChars s.data)

/-- Python `int(s)` string grammar: surrounding whitespace, optional sign,
digits only. -/
def intOfString (s : String) : Option Int :=
  match stripChars s.data with
  | '-' :: rest => if allDigits rest then some (-(digitsToNat rest : Int)) else Option.none
  | '+' :: rest => if allDigits rest then some ((digitsToNat rest : Int)) else Option.none
  | cs => if allDigits cs then some ((digitsToNat cs : Int)) else Option.none

/-- Truncation toward zero, as Python `int(float)` does. -/
def ratTrunc (q : ℚ) : Int :=
  if 0 ≤ q.num then ((q.num.natAbs / q.den : Nat) : Int) else -((q.num.natAbs / q.den : Nat) : Int)

/-- Python `int(x)`: parses strings, truncates numerics, raises
`TypeError` on `None` and `ValueError` on malformed strings. -/
def pyIntE : PyVal → Except PErr Int
  | .none => .error .typeError
  | .date _ => .error .typeError
  | .int n => .ok n
  | .dec q => .ok (ratTrunc q)
  | .float q => .ok (ratTrunc q)
  | .str s =>
    match intOfString s with
    | some n => .ok n
    | Option.none => .error .valueError

/-- Python `float(x)`: raises `TypeError` on `None` and `ValueError` on
malformed strings. -/
def pyFloatE : PyVal → Except PErr ℚ
  | .none => .error .typeError
  | .date _ => .error .typeError
  | .int n => .ok (intQ n)
  | .dec q => .ok q
  | .float q => .ok q
  | .str s =>
    match numOfString s with
    | some q => .ok q
    | Option.none => .error .valueError

/-- Python `Decimal(x)`: raises `TypeError` on `None` and
`decimal.InvalidOperation` (an `ArithmeticError`, not a `ValueError`) on
malformed strings. -/
def pyDecimalE : PyVal → Except PErr ℚ
  | .none => .error .typeError
  | .date _ => .error .typeError
  | .int n => .ok (intQ n)
  | .dec q => .ok q
  | .float q => .ok q
  | .str s =>
    match numOfString s with
    | some q => .ok q
    | Option.none => .error .invalidOperation

/-- The exception classes caught by `except (ValueError, TypeError)`. -/
def caughtValueType (e : PErr) : Bool :=
  e == .valueError || e == .typeError

/-- The deterministic surrogate key of the date dimension:
`int(d.strftime("%Y-%m-%d").replace("-", ""))`, i.e. the decimal `YYYYMMDD`
encoding of the date. -/
def yyyymmddNum (d : PDate) : Int :=
  ((d.year * 10000 + d.month * 100 + d.day : Nat) : Int)

/-- Left-pad a numeral with zeros to width `w`. -/
def padNum (n w : Nat) : String :=
  let s := natToStr n
  if s.length < w then String.mk (List.replicate (w - s.length) '0') ++ s else s

/-- `d.strftime("%Y-%m-%d")`. -/
def fmtDate (d : PDate) : String :=
  padNum d.year 4 ++ "-" ++ padNum d.month 2 ++ "-" ++ padNum d.day 2

/-- Python `date.weekday()`: Monday is 0, Sunday is 6 (Sakamoto's method
shifted from its Sunday-based count). -/
def pyWeekday (d : PDate) : Nat :=
  let t : List Nat := [0, 3, 2, 5, 0, 3, 5, 1, 4, 6, 2, 4]
  let y : Int := if d.month < 3 then (d.year : Int) - 1 else (d.year : Int)
  let s : Int := y + y.fdiv 4 - y.fdiv 100 + y.fdiv 400 + ((t.getD (d.month - 1) 0 : Nat) : Int) + (d.day : Int)
  ((s.emod 7 + 6).toNat) % 7

/-- `strftime("%A")` names indexed by `pyWeekday`. -/
def dayNames : List String :=
  ["Monday", "Tuesday", "Wednesday", "Thursday", "Friday", "Saturday", "Sunday"]

/-- `strftime("%B")` names indexed by month - 1. -/
def monthNames : List String :=
  ["January", "February", "March", "April", "May", "June",
   "July", "August", "September", "October", "November", "December"]

/-- The per-process exchange-rate table `_EXCHANGE_RATES` (environment
variables absent, so the documented defaults apply). -/
def exchangeRates : List (String × ℚ) :=
  [("USD", mkRat 307 100), ("EUR", mkRat 35 10), ("RUR", mkRat 37 1000),
   ("KZT", mkRat 59 10000), ("UZS", mkRat 2 10000)]

/-- `_EXCHANGE_RATES.get(x)`: only string keys can match. -/
def ratesGet : PyVal → Option ℚ
  | .str c => exchangeRates.lookup c
  | _ => Option.none

/-- `convert_currency(balance_currency, amount)` of both processors: known
codes multiply by the rate; unknown codes return the amount unchanged and
log a warning (the Bool component records whether the warning fired.) -/
def convert_currency (balance_currency : PyVal) (amount : ℚ) : ℚ × Bool :=
  match ratesGet balance_currency with
  | some rate => (qMul amount rate, false)
  | Option.none => (amount, true)

/-- A raw JSON record: a string-keyed mapping. -/
abbrev PRec := List (String × PyVal)

/-- `possible_name in record` followed by `record.get(possible_name)`. -/
def recGet (r : PRec) (k : String) : Option PyVal :=
  r.lookup k

/-- Probe an ordered alias list, returning the first present value. -/
def lookupFirst (r : PRec) (default : PyVal) : List String → PyVal
  | [] => default
  | k :: ks =>
    match recGet r k with
    | some v => v
    | Option.none => lookupFirst r default ks

/-- `FIELD_MAPPINGS` of `bank_accounts.py`. -/
def bankFieldMappings : List (String × List String) :=
  [("ID", ["ID", "id", "ид", "идентификатор"]),
   ("account_id", ["account_id", "accountId", "ID", "id", "ид"]),
   ("account_name", ["account_name", "accountName", "название_счета", "названиеСчета", "Название счета"]),
   ("balance", ["balance", "баланс", "Остаток"]),
   ("balance_byn", ["balance_byn", "balanceBYN", "баланс_бел", "Остаток BLR"]),
   ("currency", ["currency", "валюта", "Валюта"]),
   ("processing_date", ["processing_date", "processingDate", "дата_обработки", "датаОбработки"])]

/-- `FIELD_MAPPINGS` of `zaimy.py`. -/
def zaimyFieldMappings : List (String × List String) :=
  [("ID", ["ID", "id", "ид", "идентификатор"]),
   ("loan_id", ["loan_id", "loanId", "ID", "id", "ид"]),
   ("contract_number", ["contract_number", "contractNumber", "Дата договора", "Номер договора"]),
   ("contract_date", ["contract_date", "contractDate", "Дата договора", "дата_договора"]),
   ("initial_amount", ["initial_amount", "initialAmount", "начальная_сумма", "Начальная сумма", "Сумма займа"]),
   ("duty", ["Долг"]),
   ("duty_byn", ["amount_byn", "amountBYN", "сумма_бел", "Сумма BLR", "Сумма возврата"]),
   ("currency", ["currency", "валюта", "Валюта", "Валюта займа"]),
   ("interest_rate", ["interest_rate", "interestRate", "процентная_ставка", "Процентная ставка"]),
   ("start_date", ["start_date", "startDate", "дата_начала", "Дата начала"]),
   ("end_date", ["end_date", "endDate", "дата_окончания", "Дата окончания"]),
   ("status", ["status", "статус", "Статус"]),
   ("processing_date", ["processing_date", "processingDate", "дата_обработки", "датаОбработки", "Дата договора"])]

/-- `get_field_value(record, field_name, default)`: probes every alias
registered for the canonical field name in order, falling back to the
field name itself when unmapped. -/
def get_field_value (mappings : List (String × List String)) (r : PRec)
    (field : String) (default : PyVal) : PyVal :=
  lookupFirst r default ((mappings.lookup field).getD [field])

/-- `dim_date` row (`models_maket.DimDate`). -/
structure DimDateRow where
  date_id : Int
  date : PDate
  day : Nat
  month : Nat
  year : Nat
  day_name : String
  month_name : String
  is_weekend : Bool
  is_holiday : Bool
  quarter : Nat
deriving DecidableEq, Repr

/-- `accounts` row (`models_maket.Account`).  Name and currency are kept as
Python values since the processor stores whatever `get_field_value`
resolved. -/
structure AccountRow where
  account_id : Int
  account_name : PyVal
  currency : PyVal
deriving DecidableEq, Repr

/-- `daily_account_balances` row (`models_maket.DailyAccountBalance`). -/
structure DailyAccountBalanceRow where
  account_id : Int
  date_id : Int
  balance : ℚ
  balance_byn : ℚ
  processing_date : String
deriving DecidableEq, Repr

/-- `daily_account_summary` row (`models_maket.DailyAccountSummary`). -/
structure DailyAccountSummaryRow where
  date_id : Int
  total_balance_byn : ℚ
  account_count : Nat
  processing_date : String
deriving DecidableEq, Repr

/-- `loans` row (`models_maket.Loan`).  Note that the model has no
`loan_currency`, `duty_money`, `duty_byn_money` or `status` column:
`created_at` is omitted here (server default, never read or compared). -/
structure LoanRow where
  id : Int
  source_loan_id : String
  contract_number : PyVal
  contract_date : PDate
  initial_amount : ℚ
  start_date : PDate
  end_date : PDate
  interest_rate : ℚ
  updated_at : Nat
deriving DecidableEq, Repr

/-- `daily_loan_balances` row (`models_maket.DailyLoanBalance`). -/
structure DailyLoanBalanceRow where
  loan_id : Int
  date_id : Int
  current_debt_byn : ℚ
  total_repaid_byn : ℚ
deriving DecidableEq, Repr

/-- The warehouse tables touched by the two processors. -/
structure Store where
  dim_date : List DimDateRow
  accounts : List AccountRow
  daily_account_balances : List DailyAccountBalanceRow
  daily_account_summary : List DailyAccountSummaryRow
  loans : List LoanRow
  daily_loan_balances : List DailyLoanBalanceRow
deriving DecidableEq, Repr

def emptyStore : Store := ⟨[], [], [], [], [], []⟩

/-- The database session: `committed` is the durable state, `current` the
transaction-local state all reads and writes act on, `opCount` numbers the
flush/commit operations so that a fault oracle can target one of them. -/
structure Session where
  committed : Store
  current : Store
  opCount : Nat
deriving DecidableEq, Repr

/-- `await db_session.flush()`: surfaces a storage fault at this operation
index; otherwise a no-op for transaction-local visibility (reads already
see `current`). -/
def flushOp (faults : Nat → Bool) (s : Session) : Except PErr Session :=
  if faults s.opCount then .error .dbError
  else .ok { s with opCount := s.opCount + 1 }

/-- `await db_session.commit()`: on success the transaction-local state
becomes durable; on a fault nothing is made durable. -/
def commitOp (faults : Nat → Bool) (s : Session) : Except PErr Session :=
  if faults s.opCount then .error .dbError
  else .ok { committed := s.current, current := s.current, opCount := s.opCount + 1 }

/-- `await db_session.rollback()`: discard all uncommitted work. -/
def rollbackOp (s : Session) : Session :=
  { s with current := s.committed }

/-- Apply a transaction-local store mutation. -/
def sessMod (s : Session) (f : Store → Store) : Session :=
  { s with current := f s.current }

/-- The `DimDate(...)` construction of `bank_accounts.py` lines 321-332. -/
def dimDateRowFor (d : PDate) : DimDateRow :=
  { date_id := yyyymmddNum d
    date := d
    day := d.day
    month := d.month
    year := d.year
    day_name := dayNames.getD (pyWeekday d) ""
    month_name := monthNames.getD (d.month - 1) ""
    is_weekend := decide (5 ≤ pyWeekday d)
    is_holiday := false
    quarter := (d.month - 1) / 3 + 1 }

/-- The date-dimension get-or-create of `bank_accounts.py` lines 307-344:
look up by the deterministic `YYYYMMDD` surrogate key; if absent construct
the row and add it.  Returns the store, the surrogate key and whether an
insert took place (the caller flushes exactly when it did). -/
def getOrCreateDimDate (d : PDate) (s : Store) : Store × Int × Bool :=
  match s.dim_date.find? (fun row => row.date_id == yyyymmddNum d) with
  | some row => (s, row.date_id, false)
  | Option.none =>
    ({ s with dim_date := s.dim_date ++ [dimDateRowFor d] }, yyyymmddNum d, true)

/-- The `transformed_record` dictionary built per bank-account record. -/
structure TRec where
  account_id : Int
  account_name : PyVal
  currency : PyVal
  balance : ℚ
  balance_byn : ℚ
  processing_date : String
deriving DecidableEq, Repr

/-- `balance_raw.strip().replace(',', '.')`: strips only leading and
trailing whitespace, then turns every comma into a dot — interior spaces
survive. -/
def bankNormalizeStr (s : String) : String :=
  String.mk ((stripChars s.data).map (fun c => if c == ',' then '.' else c))

/-- `x is None` (identity, not equality). -/
def pyIsNone : PyVal → Bool
  | .none => true
  | _ => false

/-- `float(x)` with the string-normalization applied first when the value
is a string — the per-record balance parsing of lines 394-409. -/
def bankParseAmount (v : PyVal) : Except PErr ℚ :=
  match v with
  | .str s => pyFloatE (.str (bankNormalizeStr s))
  | v => pyFloatE v

/-- Lines 383-411 of `bank_accounts.py`: the currency-conversion decision
and the parsing of `balance` and `balance_byn`.  `Decimal(balance_raw)` is
applied to the RAW value (before any comma normalization), so a
locale-formatted string raises `decimal.InvalidOperation`, which the
enclosing `except (ValueError, TypeError)` does not catch. -/
def bankInner (balance_raw balance_byn_raw balance_currency : PyVal) :
    Except PErr (ℚ × ℚ) := do
  let byn1 : PyVal ←
    if pyEq balance_raw balance_byn_raw && !pyEq balance_currency (.str "BLR") then do
      let d ← pyDecimalE balance_raw
      pure (PyVal.dec (convert_currency balance_currency d).1)
    else if !pyIsNone balance_byn_raw then
      pure balance_byn_raw
    else do
      let d ← pyDecimalE balance_raw
      pure (PyVal.dec d)
  let balance : ℚ ←
    if !pyIsNone balance_raw then bankParseAmount balance_raw
    else pure 0
  let balance_byn : ℚ ←
    if !pyIsNone byn1 then bankParseAmount byn1
    else pure balance
  pure (balance, balance_byn)

/-- Lines 357-428 of `bank_accounts.py`: one record's in-memory
transformation.  `ok Option.none` means the record was skipped (falsy or
unparsable natural key); `ok (some t)` carries the transformed record;
`error e` is an exception the per-record handlers do not catch and which
therefore aborts the batch. -/
def bankTransform (processing_date_str : String) (r : PRec) :
    Except PErr (Option TRec) :=
  let idVal := get_field_value bankFieldMappings r "ID" .none
  if pyFalsy idVal then .ok Option.none
  else
    match pyIntE idVal with
    | .error e => if caughtValueType e then .ok Option.none else .error e
    | .ok account_id_int =>
      let balance_raw := get_field_value bankFieldMappings r "balance" .none
      let balance_byn_raw := get_field_value bankFieldMappings r "balance_byn" .none
      let balance_currency := get_field_value bankFieldMappings r "currency" .none
      match bankInner balance_raw balance_byn_raw balance_currency with
      | .error e =>
        if caughtValueType e then
          .ok (some { account_id := account_id_int
                      account_name := get_field_value bankFieldMappings r "account_name"
                        (.str ("Account " ++ intToStr account_id_int))
                      currency := get_field_value bankFieldMappings r "currency" (.str "BYN")
                      balance := 0
                      balance_byn := 0
                      processing_date := processing_date_str })
        else .error e
      | .ok (balance, balance_byn) =>
        .ok (some { account_id := account_id_int
                    account_name := get_field_value bankFieldMappings r "account_name"
                      (.str ("Account " ++ intToStr account_id_int))
                    currency := get_field_value bankFieldMappings r "currency" (.str "BYN")
                    balance := balance
                    balance_byn := balance_byn
                    processing_date := processing_date_str })

/-- The evolving state of the bank-account record loop. -/
structure BankLoop where
  sess : Session
  processed : List TRec
  accounts_processed : Nat
  accounts_updated : Nat
  balances_created : Nat
  balances_updated : Nat
  errors_count : Nat
deriving DecidableEq, Repr

/-- Account reconciliation (lines 432-466): create-and-flush when absent,
dirty-checked update when present.  A flush fault here is caught by the
per-record handler: `.error` carries the state at that point and the
record is abandoned before the fact upsert. -/
def bankAccountPhase (faults : Nat → Bool) (st : BankLoop) (t : TRec) :
    Except BankLoop BankLoop :=
  match st.sess.current.accounts.find? (fun a => a.account_id == t.account_id) with
  | Option.none =>
    let sess1 := sessMod st.sess (fun cur =>
      { cur with accounts := cur.accounts ++ [⟨t.account_id, t.account_name, t.currency⟩] })
    match flushOp faults sess1 with
    | .error _ => .error { st with sess := sess1, errors_count := st.errors_count + 1 }
    | .ok sess2 =>
      .ok { st with sess := sess2, accounts_processed := st.accounts_processed + 1 }
  | some a =>
    if !pyEq a.account_name t.account_name || !pyEq a.currency t.currency then
      .ok { st with
        sess := sessMod st.sess (fun cur =>
          { cur with accounts := cur.accounts.map (fun x =>
              if x.account_id == t.account_id then
                { x with account_name := t.account_name, currency := t.currency }
              else x) })
        accounts_updated := st.accounts_updated + 1 }
    else .ok st

/-- Daily-balance upsert (lines 469-500): dirty-checked update when the
`(account, date)` fact row exists, insert otherwise. -/
def bankBalancePhase (date_id : Int) (pds : String) (st : BankLoop) (t : TRec) : BankLoop :=
  match st.sess.current.daily_account_balances.find?
      (fun b => b.account_id == t.account_id && b.date_id == date_id) with
  | some b =>
    if !(b.balance == t.balance) || !(b.balance_byn == t.balance_byn) then
      { st with
        sess := sessMod st.sess (fun cur =>
          { cur with daily_account_balances := cur.daily_account_balances.map (fun x =>
              if x.account_id == t.account_id && x.date_id == date_id then
                { x with balance := t.balance, balance_byn := t.balance_byn,
                         processing_date := pds }
              else x) })
        balances_updated := st.balances_updated + 1 }
    else st
  | Option.none =>
    { st with
      sess := sessMod st.sess (fun cur =>
        { cur with daily_account_balances :=
            cur.daily_account_balances ++ [⟨t.account_id, date_id, t.balance, t.balance_byn, pds⟩] })
      balances_created := st.balances_created + 1 }

/-- The intermediate flush every 50 records (lines 503-510); it sits inside
the per-record `try`, so a fault here is downgraded to a per-record
error. -/
def bankMaybeFlush (faults : Nat → Bool) (idx : Nat) (st : BankLoop) : BankLoop :=
  if idx > 0 && idx % 50 == 0 then
    match flushOp faults st.sess with
    | .error _ => { st with errors_count := st.errors_count + 1 }
    | .ok sess2 => { st with sess := sess2 }
  else st

/-- One iteration of the bank-account record loop (lines 354-518). -/
def bankStep (faults : Nat → Bool) (date_id : Int) (pds : String) (idx : Nat)
    (st : BankLoop) (r : PRec) : Except (PErr × BankLoop) BankLoop :=
  match bankTransform pds r with
  | .error e => .error (e, st)
  | .ok Option.none => .ok { st with errors_count := st.errors_count + 1 }
  | .ok (some t) =>
    let st1 := { st with processed := st.processed ++ [t] }
    match bankAccountPhase faults st1 t with
    | .error stAborted => .ok stAborted
    | .ok st2 => .ok (bankMaybeFlush faults idx (bankBalancePhase date_id pds st2 t))

/-- The bank-account record loop. -/
def bankLoop (faults : Nat → Bool) (date_id : Int) (pds : String) :
    List PRec → Nat → BankLoop → Except (PErr × BankLoop) BankLoop
  | [], _, st => .ok st
  | r :: rs, idx, st =>
    match bankStep faults date_id pds idx st r with
    | .error p => .error p
    | .ok st' => bankLoop faults date_id pds rs (idx + 1) st'

/-- SQL `COUNT(DISTINCT account_id)`. -/
def distinctCount (l : List Int) : Nat :=
  l.dedup.length

/-- `calculate_and_store_daily_summary` (lines 94-177): aggregate all fact
rows of the date, upsert the one summary row, flush.  Every exception is
caught internally and reported as an error dictionary (`Option.none`
here); the `fetchone` null-sum branch (no fact rows) is the same error
path without touching storage. -/
def calculate_and_store_daily_summary (faults : Nat → Bool) (sess : Session)
    (date_id : Int) (pds : String) : Session × Option (ℚ × Nat) :=
  let rows := sess.current.daily_account_balances.filter (fun b => b.date_id == date_id)
  if rows.isEmpty then (sess, Option.none)
  else
    let total := (rows.map (fun b => b.balance_byn)).foldl qAdd 0
    let cnt := distinctCount (rows.map (fun b => b.account_id))
    let sess1 :=
      match sess.current.daily_account_summary.find? (fun s => s.date_id == date_id) with
      | some _ => sessMod sess (fun cur =>
          { cur with daily_account_summary := cur.daily_account_summary.map (fun s =>
              if s.date_id == date_id then
                { s with total_balance_byn := total, account_count := cnt,
                         processing_date := pds }
              else s) })
      | Option.none => sessMod sess (fun cur =>
          { cur with daily_account_summary :=
              cur.daily_account_summary ++ [⟨date_id, total, cnt, pds⟩] })
    match flushOp faults sess1 with
    | .error _ => (sess1, Option.none)
    | .ok sess2 => (sess2, some (total, cnt))

/-- The metadata dictionary returned by `process_bank_accounts`. -/
structure BankMeta where
  success : Bool
  record_count : Nat
  accounts_processed : Nat
  accounts_updated : Nat
  balances_created : Nat
  balances_updated : Nat
  errors : Nat
  daily_summary : Option (ℚ × Nat)
deriving DecidableEq, Repr

/-- What the caller of `process_bank_accounts` observes: the metadata, the
returned record list and the durable state of the warehouse. -/
structure BankResult where
  meta : BankMeta
  records : List TRec
  store : Store
deriving DecidableEq, Repr

def initBankLoop (sess : Session) : BankLoop :=
  ⟨sess, [], 0, 0, 0, 0, 0⟩

/-- The `except Exception` handler of lines 559-595: roll back everything
uncommitted and return the failure metadata together with whatever records
were transformed in memory before the failure point. -/
def bankFailResult (nrec : Nat) (summ : Option (ℚ × Nat)) (st : BankLoop) : BankResult :=
  { meta := ⟨false, nrec, st.accounts_processed, st.accounts_updated, st.balances_created,
             st.balances_updated, st.errors_count, summ⟩
    records := st.processed
    store := (rollbackOp st.sess).committed }

/-- `process_bank_accounts(data, db_session)` (lines 180-628), with the
record list already extracted from the envelope, the processing date and
the storage-fault oracle as explicit inputs.  The missing-session early
return is not modelled (a session is always provided here). -/
def process_bank_accounts (init : Store) (records : List PRec) (today : PDate)
    (faults : Nat → Bool) : BankResult :=
  if records.isEmpty then
    { meta := ⟨false, 0, 0, 0, 0, 0, 0, Option.none⟩, records := [], store := init }
  else
    let pds := fmtDate today
    let date_id := yyyymmddNum today
    let sess0 : Session := ⟨init, init, 0⟩
    let gc := getOrCreateDimDate today sess0.current
    let sess1 : Session := { sess0 with current := gc.1 }
    match (if gc.2.2 then flushOp faults sess1 else .ok sess1) with
    | .error _ => bankFailResult records.length Option.none (initBankLoop sess1)
    | .ok sess2 =>
      match bankLoop faults date_id pds records 0 (initBankLoop sess2) with
      | .error (_, st) => bankFailResult records.length Option.none st
      | .ok st =>
        match flushOp faults st.sess with
        | .error _ => bankFailResult records.length Option.none st
        | .ok sessF =>
          let sp := calculate_and_store_daily_summary faults sessF date_id pds
          match commitOp faults sp.1 with
          | .error _ => bankFailResult records.length sp.2 { st with sess := sp.1 }
          | .ok sessC =>
            { meta := ⟨true, st.processed.length, st.accounts_processed, st.accounts_updated,
                       st.balances_created, st.balances_updated, st.errors_count, sp.2⟩
              records := st.processed
              store := sessC.committed }

/-- The `loan_data` dictionary assembled per loan record (`zaimy.py`
lines 254-267). -/
structure LoanData where
  source_loan_id : String
  contract_number : PyVal
  contract_date : PDate
  initial_amount : ℚ
  loan_currency : PyVal
  duty_money : String
  duty_byn_money : String
  interest_rate : ℚ
  start_date : PDate
  end_date : PDate
  status : PyVal
  updated_at : Nat
deriving DecidableEq, Repr

/-- `get_field_value` specialised to the loan mappings. -/
def zamGet (r : PRec) (f : String) (d : PyVal) : PyVal :=
  get_field_value zaimyFieldMappings r f d

/-- `loan_currency_value not in ["BLR", "BYN"]`. -/
def zaimyNeedsConvert (cur : PyVal) : Bool :=
  !pyEq cur (.str "BLR") && !pyEq cur (.str "BYN")

/-- Lines 230-267 of `zaimy.py`: extract and convert the record's values
and assemble `loan_data`.  The `Decimal` constructors can raise, which the
per-record handler catches. -/
def buildLoanData (r : PRec) (loan_id : String) (now : Nat) : Except PErr LoanData := do
  let initial_amount_raw := zamGet r "initial_amount" (.int 0)
  let loan_currency_value := zamGet r "currency" (.str "BYN")
  let duty_raw := zamGet r "duty" (.int 0)
  let initial_amount_decimal ← pyDecimalE initial_amount_raw
  let duty_decimal ← pyDecimalE duty_raw
  let calculated_duty_byn_money :=
    if zaimyNeedsConvert loan_currency_value then
      (convert_currency loan_currency_value duty_decimal).1
    else duty_decimal
  let interest ← pyDecimalE (zamGet r "interest_rate" (.int 0))
  pure { source_loan_id := loan_id
         contract_number := zamGet r "contract_number" (.str ("LOAN-" ++ loan_id))
         contract_date := ⟨2000, 1, 1⟩
         initial_amount := initial_amount_decimal
         loan_currency := loan_currency_value
         duty_money := ratToStr duty_decimal
         duty_byn_money := ratToStr calculated_duty_byn_money
         interest_rate := interest
         start_date := ⟨2000, 1, 1⟩
         end_date := ⟨2000, 12, 31⟩
         status := zamGet r "status" (.str "active")
         updated_at := now }

/-- The attribute names of the `Loan` model (columns, timestamps and the
`daily_balances` relationship). -/
def loanColumns : List String :=
  ["id", "source_loan_id", "contract_number", "contract_date", "initial_amount",
   "start_date", "end_date", "interest_rate", "created_at", "updated_at", "daily_balances"]

/-- The keys of `loan_data`, in dictionary order. -/
def loanDataKeys : List String :=
  ["source_loan_id", "contract_number", "contract_date", "initial_amount", "loan_currency",
   "duty_money", "duty_byn_money", "interest_rate", "start_date", "end_date", "status",
   "updated_at"]

/-- `Loan(**loan_data)`: the declarative-base default constructor raises
`TypeError` for any keyword that is not an attribute of the model class
(`loan_data` carries `loan_currency`, `duty_money`, `duty_byn_money` and
`status`, none of which `Loan` defines). -/
def loanInit (newId : Int) (ld : LoanData) : Except PErr LoanRow :=
  if loanDataKeys.all (fun k => loanColumns.contains k) then
    .ok ⟨newId, ld.source_loan_id, ld.contract_number, ld.contract_date, ld.initial_amount,
         ld.start_date, ld.end_date, ld.interest_rate, ld.updated_at⟩
  else .error .typeError

/-- `getattr(existing_loan, key)`: mapped columns yield their value, any
other key raises `AttributeError` on a freshly loaded row. -/
def getattrLoan (L : LoanRow) : String → Except PErr PyVal
  | "id" => .ok (.int L.id)
  | "source_loan_id" => .ok (.str L.source_loan_id)
  | "contract_number" => .ok L.contract_number
  | "contract_date" => .ok (.date L.contract_date)
  | "initial_amount" => .ok (.dec L.initial_amount)
  | "start_date" => .ok (.date L.start_date)
  | "end_date" => .ok (.date L.end_date)
  | "interest_rate" => .ok (.dec L.interest_rate)
  | _ => .error .attributeError

/-- The value `loan_data[key]` as a Python value (keys other than
`updated_at`, which the diff skips). -/
def loanDataVal (ld : LoanData) : String → PyVal
  | "source_loan_id" => .str ld.source_loan_id
  | "contract_number" => ld.contract_number
  | "contract_date" => .date ld.contract_date
  | "initial_amount" => .dec ld.initial_amount
  | "loan_currency" => ld.loan_currency
  | "duty_money" => .str ld.duty_money
  | "duty_byn_money" => .str ld.duty_byn_money
  | "interest_rate" => .dec ld.interest_rate
  | "start_date" => .date ld.start_date
  | "end_date" => .date ld.end_date
  | "status" => ld.status
  | _ => .none

/-- The short-circuiting `any(getattr(existing_loan, key) != value ...)`
of lines 274-278: stops at the first differing tracked field, raises
`AttributeError` when it reaches a key the model does not define. -/
def hasChangesGo (L : LoanRow) (ld : LoanData) : List String → Except PErr Bool
  | [] => .ok false
  | k :: ks =>
    if k == "updated_at" then hasChangesGo L ld ks
    else
      match getattrLoan L k with
      | .error e => .error e
      | .ok v =>
        if !pyEq v (loanDataVal ld k) then .ok true else hasChangesGo L ld ks

def hasChanges (L : LoanRow) (ld : LoanData) : Except PErr Bool :=
  hasChangesGo L ld loanDataKeys

/-- The update loop `for key, value in loan_data.items(): setattr(...)`:
mapped columns are written; the four unmapped keys become transient
instance attributes that no column persists, so they are dropped here. -/
def applyLoanData (L : LoanRow) (ld : LoanData) : LoanRow :=
  { L with source_loan_id := ld.source_loan_id
           contract_number := ld.contract_number
           contract_date := ld.contract_date
           initial_amount := ld.initial_amount
           start_date := ld.start_date
           end_date := ld.end_date
           interest_rate := ld.interest_rate
           updated_at := ld.updated_at }

/-- A fresh surrogate id for an insert (never reached: `loanInit` always
raises). -/
def nextLoanId (s : Store) : Int :=
  (s.loans.map (fun l => l.id)).foldl max 0 + 1

/-- The evolving state of the first (entity reconciliation) loan loop. -/
structure ZaimyLoop where
  sess : Session
  processed : List LoanData
  loans_processed : Nat
  loans_updated : Nat
  loans_created : Nat
  errors_count : Nat
deriving DecidableEq, Repr

/-- The entity upsert inside one loan-loop iteration (lines 269-293):
dirty-checked update of an existing loan, or the (always failing)
constructor call for a new one.  `.error ()` stands for an exception the
per-record handler catches. -/
def zaimyUpsert (st : ZaimyLoop) (loan_id : String) (ld : LoanData) : Except Unit ZaimyLoop :=
  match st.sess.current.loans.find? (fun L => L.source_loan_id == loan_id) with
  | some L =>
    match hasChanges L ld with
    | .error _ => .error ()
    | .ok true =>
      .ok { st with
        sess := sessMod st.sess (fun cur =>
          { cur with loans := cur.loans.map (fun x =>
              if x.id == L.id then applyLoanData x ld else x) })
        loans_updated := st.loans_updated + 1 }
    | .ok false => .ok st
  | Option.none =>
    match loanInit (nextLoanId st.sess.current) ld with
    | .error _ => .error ()
    | .ok newL =>
      .ok { st with
        sess := sessMod st.sess (fun cur => { cur with loans := cur.loans ++ [newL] })
        loans_created := st.loans_created + 1 }

/-- The intermediate flush every 50 records of the loan loop
(lines 299-301); it sits inside the per-record `try`, so a fault here is
a per-record error. -/
def zaimyPer50 (faults : Nat → Bool) (idx : Nat) (st2 : ZaimyLoop) : ZaimyLoop :=
  if idx > 0 && idx % 50 == 0 then
    match flushOp faults st2.sess with
    | .error _ => { st2 with errors_count := st2.errors_count + 1 }
    | .ok sess2 => { st2 with sess := sess2 }
  else st2

/-- One iteration of the loan reconciliation loop (lines 209-307).  The
whole body sits inside `try/except Exception`, so every raise becomes a
per-record error; `existing_loans` is equivalent to a lookup in the
transaction-local store because updates mutate the shared instances and
inserts never succeed. -/
def zaimyStep1 (faults : Nat → Bool) (now : Nat) (idx : Nat) (st : ZaimyLoop)
    (r : PRec) : ZaimyLoop :=
  let loan_id := pyStr (zamGet r "ID" .none)
  match buildLoanData r loan_id now with
  | .error _ => { st with errors_count := st.errors_count + 1 }
  | .ok ld =>
    match zaimyUpsert st loan_id ld with
    | .error _ => { st with errors_count := st.errors_count + 1 }
    | .ok st1 =>
      zaimyPer50 faults idx { st1 with
                              processed := st1.processed ++ [ld]
                              loans_processed := st1.loans_processed + 1 }

def zaimyLoop1 (faults : Nat → Bool) (now : Nat) :
    List PRec → Nat → ZaimyLoop → ZaimyLoop
  | [], _, st => st
  | r :: rs, idx, st => zaimyLoop1 faults now rs (idx + 1) (zaimyStep1 faults now idx st r)

/-- The evolving state of the second (`DailyLoanBalance`) loan loop. -/
structure Zaimy2 where
  sess : Session
  processed_date_ids : List Int
  errors_count : Nat
deriving DecidableEq, Repr

/-- `processed_date_ids.add(date_id)` (a Python set, kept in insertion
order). -/
def insertDateId (l : List Int) (d : Int) : List Int :=
  if l.contains d then l else l ++ [d]

/-- One iteration of the `DailyLoanBalance` loop (lines 317-387): silently
skip when the loan is not found or when `DimDate` has no row for the
current date (`if not date_id` also treats a zero key as missing); then
parse the debt, convert it, and upsert the `(loan, date)` fact row. -/
def zaimyStep2 (today : PDate) (st : Zaimy2) (r : PRec) : Zaimy2 :=
  let loan_id_from_source := pyStr (zamGet r "ID" .none)
  match st.sess.current.loans.find? (fun L => L.source_loan_id == loan_id_from_source) with
  | Option.none => st
  | some current_loan =>
    match st.sess.current.dim_date.find? (fun dd => dd.date == today) with
    | Option.none => st
    | some dd =>
      if dd.date_id == 0 then st
      else
        let st1 := { st with processed_date_ids := insertDateId st.processed_date_ids dd.date_id }
        match pyDecimalE (zamGet r "duty" (.int 0)) with
        | .error _ => { st1 with errors_count := st1.errors_count + 1 }
        | .ok duty_decimal =>
          let cur := zamGet r "currency" (.str "BYN")
          let calcDuty :=
            if zaimyNeedsConvert cur then (convert_currency cur duty_decimal).1
            else duty_decimal
          match st1.sess.current.daily_loan_balances.find?
              (fun b => b.loan_id == current_loan.id && b.date_id == dd.date_id) with
          | some b =>
            if !(b.current_debt_byn == calcDuty) then
              { st1 with sess := sessMod st1.sess (fun c =>
                  { c with daily_loan_balances := c.daily_loan_balances.map (fun x =>
                      if x.loan_id == current_loan.id && x.date_id == dd.date_id then
                        { x with current_debt_byn := calcDuty }
                      else x) }) }
            else st1
          | Option.none =>
            { st1 with sess := sessMod st1.sess (fun c =>
                { c with daily_loan_balances :=
                    c.daily_loan_balances ++ [⟨current_loan.id, dd.date_id, calcDuty, 0⟩] }) }

def zaimyLoop2 (today : PDate) : List PRec → Zaimy2 → Zaimy2
  | [], st => st
  | r :: rs, st => zaimyLoop2 today rs (zaimyStep2 today st r)

/-- SQL `SUM(current_debt_byn)` over the fact rows of one date (`NULL`,
i.e. no rows, is coalesced to 0 by the caller). -/
def debtSum (dlbs : List DailyLoanBalanceRow) (d : Int) : ℚ :=
  ((dlbs.filter (fun b => b.date_id == d)).map (fun b => b.current_debt_byn)).foldl qAdd 0

/-- The bulk `UPDATE daily_loan_balances SET total_repaid_byn = v WHERE
date_id = d`. -/
def updateRepaid (dlbs : List DailyLoanBalanceRow) (d : Int) (v : ℚ) :
    List DailyLoanBalanceRow :=
  dlbs.map (fun b => if b.date_id == d then { b with total_repaid_byn := v } else b)

/-- Lines 397-422: for every processed date, sum the day's current debt
across all loans and write it into `total_repaid_byn` of every fact row of
that date. -/
def aggregateRepaid (dlbs : List DailyLoanBalanceRow) :
    List Int → List DailyLoanBalanceRow
  | [] => dlbs
  | d :: ds => aggregateRepaid (updateRepaid dlbs d (debtSum dlbs d)) ds

/-- The metadata dictionary returned by `process_zaimy` (`isError` marks
the `except` path that returns an `error` key). -/
structure ZaimyMeta where
  isError : Bool
  records_processed : Nat
  records_updated : Nat
  records_created : Nat
  errors_count : Nat
deriving DecidableEq, Repr

/-- What the caller of `process_zaimy` observes, plus the processed date
ids (exposed for specification purposes). -/
structure ZaimyResult where
  meta : ZaimyMeta
  records : List LoanData
  store : Store
  processed_date_ids : List Int
deriving DecidableEq, Repr

/-- The `except Exception` handler of lines 451-465: roll back the
uncommitted tail and return an error dictionary with an EMPTY record
list. -/
def zaimyFail (errs : Nat) (sess : Session) : ZaimyResult :=
  { meta := ⟨true, 0, 0, 0, errs⟩
    records := []
    store := (rollbackOp sess).committed
    processed_date_ids := [] }

/-- `process_zaimy(data, db_session)` (lines 148-465) with the record list
already extracted, the current date, the `updated_at` timestamp and the
storage-fault oracle as explicit inputs.  Note the three mid-batch commits
(after loan reconciliation, after the fact upserts and after the repaid
aggregation). -/
def process_zaimy (init : Store) (records : List PRec) (today : PDate) (now : Nat)
    (faults : Nat → Bool) : ZaimyResult :=
  if records.isEmpty then
    { meta := ⟨true, 0, 0, 0, 0⟩, records := [], store := init, processed_date_ids := [] }
  else
    let sess0 : Session := ⟨init, init, 0⟩
    let st1 := zaimyLoop1 faults now records 0 ⟨sess0, [], 0, 0, 0, 0⟩
    match flushOp faults st1.sess with
    | .error _ => zaimyFail st1.errors_count st1.sess
    | .ok sessA =>
      match commitOp faults sessA with
      | .error _ => zaimyFail st1.errors_count sessA
      | .ok sessB =>
        let st2 := zaimyLoop2 today records ⟨sessB, [], st1.errors_count⟩
        match flushOp faults st2.sess with
        | .error _ => zaimyFail st2.errors_count st2.sess
        | .ok sessC =>
          match commitOp faults sessC with
          | .error _ => zaimyFail st2.errors_count sessC
          | .ok sessD =>
            if st2.processed_date_ids.isEmpty then
              { meta := ⟨false, st1.loans_processed, st1.loans_updated, st1.loans_created,
                         st2.errors_count⟩
                records := st1.processed
                store := sessD.committed
                processed_date_ids := st2.processed_date_ids }
            else
              let sessE := sessMod sessD (fun c =>
                { c with daily_loan_balances :=
                    aggregateRepaid c.daily_loan_balances st2.processed_date_ids })
              match commitOp faults sessE with
              | .error _ => zaimyFail st2.errors_count sessE
              | .ok sessF =>
                { meta := ⟨false, st1.loans_processed, st1.loans_updated, st1.loans_created,
                           st2.errors_count⟩
                  records := st1.processed
                  store := sessF.committed
                  processed_date_ids := st2.processed_date_ids }

/-- The transformed records produced, in memory, by the successfully
processed prefix of a bank batch (stopping at the first record whose
transformation raises an uncaught exception). -/
def bankTransformsPrefix (pds : String) : List PRec → List TRec
  | [] => []
  | r :: rs =>
    match bankTransform pds r with
    | .error _ => []
    | .ok Option.none => bankTransformsPrefix pds rs
    | .ok (some t) => t :: bankTransformsPrefix pds rs

/-!  Concrete inputs used by the witnesses and counterexamples. -/

/-- The records appended by one bank step. -/
def bankStepAppend (pds : String) (r : PRec) : List TRec :=
  match bankTransform pds r with
  | .ok (some t) => [t]
  | _ => []

/-- A fault-free storage oracle. -/
def noFaults : Nat → Bool := fun _ => false

/-- A fixed processing date for the concrete scenarios. -/
def day0 : PDate := ⟨2026, 10, 12⟩

/-- The scenario-A record: natural key `"42"`, currency `"USD"`, balance
`100`, and no separate `balance_byn` value. -/
def rec42 : PRec := [("ID", .str "42"), ("currency", .str "USD"), ("balance", .int 100)]

/-- Scenario A processed against an empty warehouse. -/
def resC2 : BankResult := process_bank_accounts emptyStore [rec42] day0 noFaults

/-- A stored loan whose contract number differs from what re-processing
resolves (so the update path runs). -/
def loanOld : LoanRow := ⟨1, "7", .str "OLD", ⟨2000, 1, 1⟩, 0, ⟨2000, 1, 1⟩, ⟨2000, 12, 31⟩, 0, 0⟩

def storeC1 : Store := { emptyStore with loans := [loanOld] }

/-- A loan record carrying only the natural key `7`. -/
def recLoan7 : PRec := [("ID", .int 7)]

/-- The loan batch run fault-free. -/
def resC1ok : ZaimyResult := process_zaimy storeC1 [recLoan7] day0 5 noFaults

/-- The same loan batch with a storage fault at operation 2, the flush
between the `DailyLoanBalance` loop and the repaid aggregation — after the
first mid-batch commit. -/
def resC1fail : ZaimyResult := process_zaimy storeC1 [recLoan7] day0 5 (fun n => n == 2)

/-- A bank record whose balance string is not a number: `Decimal("zz")`
raises `InvalidOperation`, which the per-record handler does not catch. -/
def recBadC1 : PRec := [("ID", .int 3), ("balance", .str "zz")]

/-- A bank batch aborted by that uncaught exception. -/
def resC1bank : BankResult := process_bank_accounts emptyStore [recBadC1] day0 noFaults

/-- A bank record with an unparsable balance and no separate
`balance_byn`. -/
def recBadAmount : PRec := [("ID", .int 1), ("balance", .str "abc")]

def resC4 : BankResult := process_bank_accounts emptyStore [recBadAmount] day0 noFaults

/-- Balance `"1 234,56"` (with an interior space), alongside a distinct
`balance_byn` so the batch survives. -/
def recComma : PRec := [("ID", .int 1), ("balance", .str "1 234,56"), ("balance_byn", .str "999")]

/-- The same record with the balance written `"1234.56"`. -/
def recDot : PRec := [("ID", .int 1), ("balance", .str "1234.56"), ("balance_byn", .str "999")]

def resC8comma : BankResult := process_bank_accounts emptyStore [recComma] day0 noFaults

def resC8dot : BankResult := process_bank_accounts emptyStore [recDot] day0 noFaults

/-- `"1 234,56"` as balance with no `balance_byn` at all. -/
def recCommaSolo : PRec := [("ID", .int 1), ("balance", .str "1 234,56")]

def resC8solo : BankResult := process_bank_accounts emptyStore [recCommaSolo] day0 noFaults

/-- A stored loan agreeing with everything a bare `{"ID": 7}` record
resolves (all tracked fields equal). -/
def loanMatch : LoanRow :=
  ⟨1, "7", .str "LOAN-7", ⟨2000, 1, 1⟩, 0, ⟨2000, 1, 1⟩, ⟨2000, 12, 31⟩, 0, 5⟩

/-- Warehouse holding `loanMatch` and the date-dimension row for `day0`. -/
def storeC5 : Store := { emptyStore with loans := [loanMatch], dim_date := [dimDateRowFor day0] }

/-- A loan record with natural key `7` and debt `"50"`. -/
def recLoan50 : PRec := [("ID", .int 7), ("Долг", .str "50")]

def resC5 : ZaimyResult := process_zaimy storeC5 [recLoan50] day0 5 noFaults

/-- A new-loan record processed against an empty warehouse (no `DimDate`
row for the processing date). -/
def recLoan5 : PRec := [("ID", .int 5)]

def resC9 : ZaimyResult := process_zaimy emptyStore [recLoan5] day0 5 noFaults

/-- Warehouse already holding the account that `rec42` resolves to. -/
def storeAcc : Store := { emptyStore with accounts := [⟨42, .str "Account 42", .str "USD"⟩] }

/-- The transformed record of `rec42`. -/
def trec42 : TRec := ⟨42, .str "Account 42", .str "USD", 100, 100, "2026-10-12"⟩

/-- The `loan_data` resolved from the bare record `{"ID": 7}`. -/
def ldLoan7 : LoanData :=
  ⟨"7", .str "LOAN-7", ⟨2000, 1, 1⟩, 0, .str "BYN", "0", "0", 0, ⟨2000, 1, 1⟩,
   ⟨2000, 12, 31⟩, .str "active", 5⟩

/-!  Bridging lemmas identifying the executable rational operations with
the standard field operations on `ℚ`. -/

theorem qAdd_eq (a b : ℚ) : qAdd a b = a + b := by
  rw [qAdd, Rat.add_def, Rat.normalize_eq_mkRat]

theorem qMul_eq (a b : ℚ) : qMul a b = a * b := by
  rw [qMul, Rat.mul_def, Rat.normalize_eq_mkRat]

theorem qNeg_eq (a : ℚ) : qNeg a = -a := by
  rw [qNeg, Rat.mkRat_eq_divInt, ← Rat.neg_def]

theorem intQ_eq (n : Int) : intQ n = (n : ℚ) := by
  rw [intQ, Rat.mkRat_one]

theorem natQ_eq (n : Nat) : natQ n = (n : ℚ) := by
  rw [natQ, Rat.mkRat_one]
  norm_cast

/-- Python equality is reflexive on the embedded values. -/
theorem pyEq_refl (v : PyVal) : pyEq v v = true := by
  cases v <;> simp [pyEq, PyVal.numVal]

/-- The daily-balance upsert phase touches neither the accounts table nor
the account counters, the in-memory record list, or the durable state. -/
theorem bankBalancePhase_pres (date_id : Int) (pds : String) (st : BankLoop) (t : TRec) :
    (bankBalancePhase date_id pds st t).sess.current.accounts = st.sess.current.accounts ∧
    (bankBalancePhase date_id pds st t).sess.committed = st.sess.committed ∧
    (bankBalancePhase date_id pds st t).accounts_updated = st.accounts_updated ∧
    (bankBalancePhase date_id pds st t).processed = st.processed := by
  unfold bankBalancePhase
  split
  · split
    · simp [sessMod]
    · simp
  · simp [sessMod]

/-- A successful flush changes only the operation counter. -/
theorem flushOp_ok {faults : Nat → Bool} {s s2 : Session} (h : flushOp faults s = .ok s2) :
    s2.current = s.current ∧ s2.committed = s.committed ∧ s2.opCount = s.opCount + 1 := by
  unfold flushOp at h
  split at h
  · cases h
  · cases h
    exact ⟨rfl, rfl, rfl⟩

/-- A successful commit makes the transaction-local state durable. -/
theorem commitOp_ok {faults : Nat → Bool} {s s2 : Session} (h : commitOp faults s = .ok s2) :
    s2.committed = s.current ∧ s2.current = s.current := by
  unfold commitOp at h
  split at h
  · cases h
  · cases h
    exact ⟨rfl, rfl⟩

/-- The per-50-records flush touches neither store copy nor the record
list nor the account counters. -/
theorem bankMaybeFlush_pres (faults : Nat → Bool) (idx : Nat) (st : BankLoop) :
    (bankMaybeFlush faults idx st).sess.current = st.sess.current ∧
    (bankMaybeFlush faults idx st).sess.committed = st.sess.committed ∧
    (bankMaybeFlush faults idx st).accounts_updated = st.accounts_updated ∧
    (bankMaybeFlush faults idx st).processed = st.processed := by
  unfold bankMaybeFlush
  split
  · cases hf : flushOp faults st.sess with
    | error e => simp
    | ok sess2 => simp [(flushOp_ok hf).1, (flushOp_ok hf).2.1]
  · simp

/-!  C3: currency conversion. -/

/-- C3: for every currency code present in the rate table and every
decimal amount, `convert_currency` returns `amount * rate(code)` (with no
warning); for every code not in the table it returns the amount unchanged
and emits the warning, raising no exception (it is a total function); and
it is deterministic: equal arguments give equal results. -/
theorem claim_C3_theorem (code : String) (amount : ℚ) :
    (∀ rate, exchangeRates.lookup code = some rate →
      convert_currency (.str code) amount = (amount * rate, false)) ∧
    (exchangeRates.lookup code = Option.none →
      convert_currency (.str code) amount = (amount, true)) ∧
    (∀ code2 amount2, code = code2 → amount = amount2 →
      convert_currency (.str code) amount = convert_currency (.str code2) amount2) := by
  refine ⟨fun rate h => ?_, fun h => ?_, fun code2 amount2 hc ha => by rw [hc, ha]⟩
  · simp [convert_currency, ratesGet, h, qMul_eq]
  · simp [convert_currency, ratesGet, h]

/-- Witness for C3 at the known code `"USD"` (rate 3.07) and at the
unknown code `"XXX"`, both with amount 2. -/
theorem claim_C3_witness :
    exchangeRates.lookup "USD" = some (mkRat 307 100) ∧
    convert_currency (.str "USD") 2 = (2 * mkRat 307 100, false) ∧
    exchangeRates.lookup "XXX" = Option.none ∧
    convert_currency (.str "XXX") 2 = (2, true) :=
  ⟨by decide, ( claim_C3_theorem "USD" 2).1 (mkRat 307 100) (by decide), by decide,
   ( claim_C3_theorem "XXX" 2).2.1 (by decide)⟩

/-!  C2: end-to-end scenario A. -/

/-- C2 counterexample: in scenario A (one record, key `"42"`, currency
`"USD"`, balance `100`, empty warehouse) the stored reporting amount and
the summary total are `100`, not `100 * rate(USD) = 307`: the processor
only invokes the converter when the record's `balance` equals its
`balance_byn`, and this record has no `balance_byn` at all. -/
theorem claim_C2_counterexample :
    resC2.store.daily_account_balances.map (fun b => b.balance_byn) = [100] ∧
    resC2.store.daily_account_summary.map (fun s => s.total_balance_byn) = [100] ∧
    (convert_currency (.str "USD") 100).1 = 307 ∧ (100 : ℚ) ≠ 307 :=
  ⟨by decide, by decide, by decide, by decide⟩

/-- C2 amended: scenario A produces exactly one Account row with key 42,
one DailyAccountBalance row for the processing date with source amount
100 and reporting amount 100 (conversion is skipped because no
`balance_byn` equal to `balance` is present), and one DailyAccountSummary
row whose total is that same 100 with count 1. -/
theorem claim_C2_amended :
    resC2.store.accounts = [⟨42, .str "Account 42", .str "USD"⟩] ∧
    resC2.store.daily_account_balances = [⟨42, yyyymmddNum day0, 100, 100, fmtDate day0⟩] ∧
    resC2.store.daily_account_summary = [⟨yyyymmddNum day0, 100, 1, fmtDate day0⟩] ∧
    resC2.meta.success = true ∧ resC2.meta.errors = 0 :=
  ⟨by decide, by decide, by decide, by decide, by decide⟩

/-!  C4: per-record error handling. -/

/-- C4 counterexample: the record `{"ID": 1, "balance": "abc"}` (an
unparsable amount) ABORTS the whole batch instead of being skipped:
`Decimal("abc")` raises `InvalidOperation`, which `except (ValueError,
TypeError)` does not catch; the batch fails, storage is rolled back, and
the error counter was never incremented. -/
theorem claim_C4_counterexample :
    resC4.meta.success = false ∧ resC4.meta.errors = 0 ∧ resC4.store = emptyStore :=
  ⟨by decide, by decide, by decide⟩

/-- C4 amended: a missing or unparsable NATURAL KEY is skipped, counted
and processing continues, in both processors (per-record errors in the
loan processor are always skip-and-count).  Unparsable AMOUNTS in the
bank processor do not follow this discipline: a float-parse failure keeps
the record with both balances zeroed and no error count (third conjunct),
and a Decimal-parse failure aborts the batch (see the counterexample). -/
theorem claim_C4_amended :
    (∀ (faults : Nat → Bool) (date_id : Int) (pds : String) (idx : Nat)
        (st : BankLoop) (r : PRec),
      bankTransform pds r = .ok Option.none →
      bankStep faults date_id pds idx st r = .ok { st with errors_count := st.errors_count + 1 }) ∧
    (∀ (faults : Nat → Bool) (now idx : Nat) (st : ZaimyLoop) (r : PRec) (e : PErr),
      buildLoanData r (pyStr (zamGet r "ID" PyVal.none)) now = .error e →
      zaimyStep1 faults now idx st r = { st with errors_count := st.errors_count + 1 }) ∧
    bankTransform "2026-10-12" [("ID", .int 1), ("balance", .str "abc"), ("balance_byn", .str "5")]
      = .ok (some ⟨1, .str "Account 1", .str "BYN", 0, 0, "2026-10-12"⟩) := by
  refine ⟨fun faults date_id pds idx st r h => ?_, fun faults now idx st r e h => ?_, by decide⟩
  · simp [bankStep, h]
  · simp [zaimyStep1, h]

/-- Witness for C4 amended: a record with no `ID` field is skipped and
counted by the bank step, and a loan record with debt `"abc"` is skipped
and counted by the loan step. -/
theorem claim_C4_witness :
    bankStep noFaults 20261012 "2026-10-12" 0 (initBankLoop ⟨emptyStore, emptyStore, 0⟩)
        [("balance", .int 3)]
      = .ok { initBankLoop ⟨emptyStore, emptyStore, 0⟩ with errors_count := 1 } ∧
    zaimyStep1 noFaults 5 0 ⟨⟨emptyStore, emptyStore, 0⟩, [], 0, 0, 0, 0⟩
        [("ID", .int 7), ("Долг", .str "abc")]
      = { (⟨⟨emptyStore, emptyStore, 0⟩, [], 0, 0, 0, 0⟩ : ZaimyLoop) with errors_count := 1 } :=
  ⟨claim_C4_amended.1 noFaults 20261012 "2026-10-12" 0 _ _ (by decide),
   claim_C4_amended.2.1 noFaults 5 0 _ _ .invalidOperation (by decide)⟩

/-!  C8: locale normalization of amount strings. -/

/-- C8: the code intends (per its own inline comment) to strip spaces and
turn commas into dots, but `strip()` removes only edge whitespace and the
`Decimal` call precedes the normalization entirely.  `"1 234,56"` is
normalized to `"1 234.56"`, whose float parse fails: with a distinct
`balance_byn` present the record is stored with balance 0 where
`"1234.56"` stores 1234.56, and with no `balance_byn` the comma string
aborts the whole batch via `decimal.InvalidOperation`. -/
theorem claim_C8_theorem :
    bankNormalizeStr "1 234,56" = "1 234.56" ∧
    numOfString "1 234.56" = Option.none ∧
    numOfString (bankNormalizeStr "1234.56") = some (mkRat 123456 100) ∧
    resC8comma.store.daily_account_balances.map (fun b => b.balance) = [0] ∧
    resC8dot.store.daily_account_balances.map (fun b => b.balance) = [mkRat 123456 100] ∧
    (0 : ℚ) ≠ mkRat 123456 100 ∧
    resC8solo.meta.success = false ∧ resC8solo.store = emptyStore :=
  ⟨by decide, by decide, by decide, by decide, by decide, by decide, by decide, by decide⟩

/-!  C10: falsy natural keys. -/

/-- C10: every record whose resolved natural-key value is falsy — the
integer 0 and the empty string included, not only an absent field — is
skipped and counted as an error by the bank step, even though `int(0)`
would parse fine. -/
theorem claim_C10_theorem (faults : Nat → Bool) (date_id : Int) (pds : String)
    (idx : Nat) (st : BankLoop) (r : PRec) :
    (pyFalsy (get_field_value bankFieldMappings r "ID" PyVal.none) = true →
      bankStep faults date_id pds idx st r = .ok { st with errors_count := st.errors_count + 1 }) ∧
    pyFalsy (.int 0) = true ∧ pyFalsy (.str "") = true ∧ pyIntE (.int 0) = .ok 0 := by
  refine ⟨fun h => ?_, by decide, by decide, by decide⟩
  simp [bankStep, bankTransform, h]

/-- Witness for C10 at the record `{"ID": 0}`. -/
theorem claim_C10_witness :
    pyFalsy (get_field_value bankFieldMappings [("ID", PyVal.int 0)] "ID" PyVal.none) = true ∧
    bankStep noFaults 20261012 "2026-10-12" 3 (initBankLoop ⟨emptyStore, emptyStore, 0⟩)
        [("ID", PyVal.int 0)]
      = .ok { initBankLoop ⟨emptyStore, emptyStore, 0⟩ with errors_count := 1 } :=
  ⟨by decide,
   (claim_C10_theorem noFaults 20261012 "2026-10-12" 3
      (initBankLoop ⟨emptyStore, emptyStore, 0⟩) [("ID", PyVal.int 0)]).1 (by decide)⟩

/-!  C6: date-dimension get-or-create idempotence. -/

/-- C6: for every date, calling the date-dimension get-or-create twice
yields the `YYYYMMDD` surrogate key both times, the first call inserts at
most one row, and the second call performs no insert and leaves the store
unchanged. -/
theorem claim_C6_theorem (d : PDate) (s : Store) :
    (getOrCreateDimDate d s).2.1 = yyyymmddNum d ∧
    (getOrCreateDimDate d (getOrCreateDimDate d s).1).2.1 = yyyymmddNum d ∧
    (getOrCreateDimDate d (getOrCreateDimDate d s).1).1 = (getOrCreateDimDate d s).1 ∧
    (getOrCreateDimDate d (getOrCreateDimDate d s).1).2.2 = false ∧
    (getOrCreateDimDate d s).1.dim_date.length ≤ s.dim_date.length + 1 := by
  cases h : s.dim_date.find? (fun row => row.date_id == yyyymmddNum d) with
  | some row =>
    have hkey : row.date_id = yyyymmddNum d := by
      have hp := List.find?_some h
      simpa using hp
    simp [getOrCreateDimDate, h, hkey]
  | none =>
    have h2 : (s.dim_date ++ [dimDateRowFor d]).find?
        (fun row => row.date_id == yyyymmddNum d) = some (dimDateRowFor d) := by
      rw [List.find?_append, h]
      simp [dimDateRowFor]
    simp [getOrCreateDimDate, h, h2, dimDateRowFor]

/-!  C7: the dirty check of both entity reconcilers. -/

/-- C7: when the stored entity's tracked fields all equal the values
resolved from the incoming record, re-processing performs zero writes to
the entity table.  For accounts the clean dirty-check leaves the accounts
table and the update counter untouched; for loans the stored row is left
untouched as well (the field diff short-circuits into the caught
`AttributeError` on `loan_currency` after the four leading fields
compare equal, so no `setattr` runs and the record is counted as a
per-record error). -/
theorem claim_C7_theorem :
    (∀ (faults : Nat → Bool) (date_id : Int) (pds : String) (idx : Nat)
        (st : BankLoop) (r : PRec) (t : TRec) (a : AccountRow),
      bankTransform pds r = .ok (some t) →
      st.sess.current.accounts.find? (fun x => x.account_id == t.account_id) = some a →
      pyEq a.account_name t.account_name = true →
      pyEq a.currency t.currency = true →
      ∃ st2, bankStep faults date_id pds idx st r = .ok st2 ∧
        st2.sess.current.accounts = st.sess.current.accounts ∧
        st2.accounts_updated = st.accounts_updated) ∧
    (∀ (faults : Nat → Bool) (now idx : Nat) (st : ZaimyLoop) (r : PRec)
        (ld : LoanData) (L : LoanRow),
      buildLoanData r (pyStr (zamGet r "ID" PyVal.none)) now = .ok ld →
      st.sess.current.loans.find?
        (fun x => x.source_loan_id == pyStr (zamGet r "ID" PyVal.none)) = some L →
      L.source_loan_id = ld.source_loan_id →
      L.contract_number = ld.contract_number →
      L.contract_date = ld.contract_date →
      L.initial_amount = ld.initial_amount →
      L.interest_rate = ld.interest_rate →
      L.start_date = ld.start_date →
      L.end_date = ld.end_date →
      zaimyStep1 faults now idx st r = { st with errors_count := st.errors_count + 1 } ∧
      (zaimyStep1 faults now idx st r).sess.current.loans = st.sess.current.loans ∧
      (zaimyStep1 faults now idx st r).loans_updated = st.loans_updated) := by
  constructor
  · intro faults date_id pds idx st r t a htrans hfind hname hcur
    have hacc : bankAccountPhase faults { st with processed := st.processed ++ [t] } t
        = .ok { st with processed := st.processed ++ [t] } := by
      unfold bankAccountPhase
      have : ({ st with processed := st.processed ++ [t] } : BankLoop).sess = st.sess := rfl
      rw [this, hfind]
      simp [hname, hcur]
    refine ⟨bankMaybeFlush faults idx
      (bankBalancePhase date_id pds { st with processed := st.processed ++ [t] } t), ?_, ?_, ?_⟩
    · simp only [bankStep, htrans, hacc]
    · have hb := bankBalancePhase_pres date_id pds { st with processed := st.processed ++ [t] } t
      have hf := bankMaybeFlush_pres faults idx
        (bankBalancePhase date_id pds { st with processed := st.processed ++ [t] } t)
      rw [hf.1, hb.1]
    · have hb := bankBalancePhase_pres date_id pds { st with processed := st.processed ++ [t] } t
      have hf := bankMaybeFlush_pres faults idx
        (bankBalancePhase date_id pds { st with processed := st.processed ++ [t] } t)
      rw [hf.2.2.1, hb.2.2.1]
  · intro faults now idx st r ld L hbuild hfind h1 h2 h3 h4 h5 h6 h7
    have hch : hasChanges L ld = .error .attributeError := by
      simp [hasChanges, loanDataKeys, hasChangesGo, getattrLoan, loanDataVal,
        h1, h2, h3, h4, pyEq_refl]
    have hup : zaimyUpsert st (pyStr (zamGet r "ID" PyVal.none)) ld = .error () := by
      simp only [zaimyUpsert, hfind, hch]
    refine ⟨?_, ?_, ?_⟩ <;>
      simp only [zaimyStep1, hbuild, hup]

/-- Witness for C7: re-processing `rec42` against a warehouse already
holding its account performs no account write, and re-processing the bare
loan record `{"ID": 7}` against a warehouse holding the matching loan
leaves the loans table untouched. -/
theorem claim_C7_witness :
    (∃ st2, bankStep noFaults 20261012 "2026-10-12" 0
        (initBankLoop ⟨storeAcc, storeAcc, 0⟩) rec42 = .ok st2 ∧
      st2.sess.current.accounts = (initBankLoop ⟨storeAcc, storeAcc, 0⟩).sess.current.accounts ∧
      st2.accounts_updated = (initBankLoop ⟨storeAcc, storeAcc, 0⟩).accounts_updated) ∧
    (zaimyStep1 noFaults 5 0 ⟨⟨storeC5, storeC5, 0⟩, [], 0, 0, 0, 0⟩ recLoan7
        = { (⟨⟨storeC5, storeC5, 0⟩, [], 0, 0, 0, 0⟩ : ZaimyLoop) with errors_count := 1 } ∧
      (zaimyStep1 noFaults 5 0 ⟨⟨storeC5, storeC5, 0⟩, [], 0, 0, 0, 0⟩ recLoan7).sess.current.loans
        = storeC5.loans) :=
  ⟨claim_C7_theorem.1 noFaults 20261012 "2026-10-12" 0 _ rec42 trec42
      ⟨42, .str "Account 42", .str "USD"⟩ (by decide) (by decide) (by decide) (by decide),
   ⟨(claim_C7_theorem.2 noFaults 5 0 _ recLoan7 ldLoan7 loanMatch (by decide) (by decide)
      (by decide) (by decide) (by decide) (by decide) (by decide) (by decide) (by decide)).1,
    (claim_C7_theorem.2 noFaults 5 0 _ recLoan7 ldLoan7 loanMatch (by decide) (by decide)
      (by decide) (by decide) (by decide) (by decide) (by decide) (by decide) (by decide)).2.1⟩⟩

/-!  C9: the loan processor and the date dimension. -/

/-- `Loan(**loan_data)` always raises: `loan_data` carries keywords the
model does not define. -/
theorem loanInit_typeError (newId : Int) (ld : LoanData) :
    loanInit newId ld = .error .typeError := by
  rfl

/-- The loan entity upsert leaves everything except the loans table, the
update/create counters and the session's transaction-local loans
untouched. -/
theorem zaimyUpsert_pres (st : ZaimyLoop) (lid : String) (ld : LoanData) (st1 : ZaimyLoop)
    (h : zaimyUpsert st lid ld = .ok st1) :
    st1.sess.current.dim_date = st.sess.current.dim_date ∧
    st1.sess.current.daily_loan_balances = st.sess.current.daily_loan_balances ∧
    st1.sess.committed = st.sess.committed ∧
    st1.processed = st.processed ∧ st1.errors_count = st.errors_count := by
  unfold zaimyUpsert at h
  split at h
  · split at h
    · cases h
    · cases h
      simp [sessMod]
    · cases h
      simp
  · split at h
    · cases h
    · cases h
      simp [sessMod]

/-- The per-50 flush of the loan loop leaves both store copies and the
record list untouched. -/
theorem zaimyPer50_pres (faults : Nat → Bool) (idx : Nat) (st : ZaimyLoop) :
    (zaimyPer50 faults idx st).sess.current = st.sess.current ∧
    (zaimyPer50 faults idx st).sess.committed = st.sess.committed ∧
    (zaimyPer50 faults idx st).processed = st.processed := by
  unfold zaimyPer50
  split
  · cases hf : flushOp faults st.sess with
    | error e => simp
    | ok sess2 => simp [(flushOp_ok hf).1, (flushOp_ok hf).2.1]
  · simp

/-- One loan-reconciliation iteration never touches the date dimension,
in either store copy. -/
theorem zaimyStep1_dim (faults : Nat → Bool) (now idx : Nat) (st : ZaimyLoop) (r : PRec) :
    (zaimyStep1 faults now idx st r).sess.current.dim_date = st.sess.current.dim_date ∧
    (zaimyStep1 faults now idx st r).sess.committed.dim_date = st.sess.committed.dim_date := by
  unfold zaimyStep1
  dsimp only
  cases hb : buildLoanData r (pyStr (zamGet r "ID" PyVal.none)) now with
  | error e => exact ⟨rfl, rfl⟩
  | ok ld =>
    dsimp only
    cases hup : zaimyUpsert st (pyStr (zamGet r "ID" PyVal.none)) ld with
    | error e => exact ⟨rfl, rfl⟩
    | ok st1 =>
      dsimp only
      have hp := zaimyUpsert_pres st _ _ st1 hup
      constructor
      · exact (congrArg Store.dim_date (zaimyPer50_pres faults idx _).1).trans hp.1
      · exact (congrArg Store.dim_date (zaimyPer50_pres faults idx _).2.1).trans
          (congrArg Store.dim_date hp.2.2.1)

/-- The loan-reconciliation loop never touches the date dimension. -/
theorem zaimyLoop1_dim (faults : Nat → Bool) (now : Nat) (rs : List PRec) (idx : Nat)
    (st : ZaimyLoop) :
    (zaimyLoop1 faults now rs idx st).sess.current.dim_date = st.sess.current.dim_date ∧
    (zaimyLoop1 faults now rs idx st).sess.committed.dim_date = st.sess.committed.dim_date := by
  induction rs generalizing idx st with
  | nil => exact ⟨rfl, rfl⟩
  | cons r rs ih =>
    have hs := zaimyStep1_dim faults now idx st r
    have hrec := ih (idx + 1) (zaimyStep1 faults now idx st r)
    exact ⟨hrec.1.trans hs.1, hrec.2.trans hs.2⟩

/-- One `DailyLoanBalance` iteration never touches the date dimension. -/
theorem zaimyStep2_dim (today : PDate) (st : Zaimy2) (r : PRec) :
    (zaimyStep2 today st r).sess.current.dim_date = st.sess.current.dim_date ∧
    (zaimyStep2 today st r).sess.committed.dim_date = st.sess.committed.dim_date := by
  unfold zaimyStep2
  dsimp only
  cases h1 : st.sess.current.loans.find?
      (fun L => L.source_loan_id == pyStr (zamGet r "ID" PyVal.none)) with
  | none => exact ⟨rfl, rfl⟩
  | some current_loan =>
    dsimp only
    cases h2 : st.sess.current.dim_date.find? (fun dd => dd.date == today) with
    | none => exact ⟨rfl, rfl⟩
    | some dd =>
      dsimp only
      cases h3 : (dd.date_id == 0) with
      | true => simp [h3]
      | false =>
        simp only [h3, Bool.false_eq_true, if_false]
        cases h4 : pyDecimalE (zamGet r "duty" (PyVal.int 0)) with
        | error e => exact ⟨rfl, rfl⟩
        | ok duty =>
          dsimp only
          cases h5 : st.sess.current.daily_loan_balances.find?
              (fun b => b.loan_id == current_loan.id && b.date_id == dd.date_id) with
          | none =>
            dsimp only
            split <;> simp [sessMod]
          | some b =>
            dsimp only
            split <;> split <;> simp [sessMod]

/-- The `DailyLoanBalance` loop never touches the date dimension. -/
theorem zaimyLoop2_dim (today : PDate) (rs : List PRec) (st : Zaimy2) :
    (zaimyLoop2 today rs st).sess.current.dim_date = st.sess.current.dim_date ∧
    (zaimyLoop2 today rs st).sess.committed.dim_date = st.sess.committed.dim_date := by
  induction rs generalizing st with
  | nil => exact ⟨rfl, rfl⟩
  | cons r rs ih =>
    have hs := zaimyStep2_dim today st r
    have hrec := ih (zaimyStep2 today st r)
    exact ⟨hrec.1.trans hs.1, hrec.2.trans hs.2⟩

/-- C9 amended: the loan processor never creates (or otherwise modifies)
a date-dimension row — the date dimension after `process_zaimy` always
equals the initial one (first conjunct); when no `DimDate` row exists for
the current date, the per-record `DailyLoanBalance` upsert is a silent
skip: no fact row, no processed date, no error increment (second
conjunct).  But the Loan entity row of a NEW record is never "still
created": the constructor rejects `loan_data`'s unmapped fields with a
`TypeError`, so the record only increments the per-record error counter
(third conjunct; see the counterexample). -/
theorem claim_C9_amended :
    (∀ (init : Store) (records : List PRec) (today : PDate) (now : Nat) (faults : Nat → Bool),
      (process_zaimy init records today now faults).store.dim_date = init.dim_date) ∧
    (∀ (today : PDate) (st : Zaimy2) (r : PRec),
      st.sess.current.dim_date.find? (fun dd => dd.date == today) = Option.none →
      zaimyStep2 today st r = st) ∧
    (∀ (faults : Nat → Bool) (now idx : Nat) (st : ZaimyLoop) (r : PRec),
      st.sess.current.loans.find?
        (fun L => L.source_loan_id == pyStr (zamGet r "ID" PyVal.none)) = Option.none →
      zaimyStep1 faults now idx st r = { st with errors_count := st.errors_count + 1 }) := by
  refine ⟨?_, ?_, ?_⟩
  · intro init records today now faults
    unfold process_zaimy
    split
    · rfl
    · dsimp only
      have h1 := zaimyLoop1_dim faults now records 0 ⟨⟨init, init, 0⟩, [], 0, 0, 0, 0⟩
      set stA := zaimyLoop1 faults now records 0 ⟨⟨init, init, 0⟩, [], 0, 0, 0, 0⟩ with hstA
      cases hfA : flushOp faults stA.sess with
      | error e => simpa [zaimyFail, rollbackOp] using h1.2
      | ok sessA =>
        dsimp only
        have hA := flushOp_ok hfA
        cases hcB : commitOp faults sessA with
        | error e => simpa [zaimyFail, rollbackOp, hA.2.1] using h1.2
        | ok sessB =>
          dsimp only
          have hB := commitOp_ok hcB
          have hBdim : sessB.current.dim_date = init.dim_date := by
            rw [hB.2, hA.1]
            simpa using h1.1
          have hBcdim : sessB.committed.dim_date = init.dim_date := by
            rw [hB.1, hA.1]
            simpa using h1.1
          have h2 := zaimyLoop2_dim today records ⟨sessB, [], stA.errors_count⟩
          set st2 := zaimyLoop2 today records ⟨sessB, [], stA.errors_count⟩ with hst2
          cases hfC : flushOp faults st2.sess with
          | error e =>
            have : st2.sess.committed.dim_date = init.dim_date := by
              simpa using h2.2.trans hBcdim
            simpa [zaimyFail, rollbackOp] using this
          | ok sessC =>
            dsimp only
            have hC := flushOp_ok hfC
            cases hcD : commitOp faults sessC with
            | error e =>
              have : sessC.committed.dim_date = init.dim_date := by
                rw [hC.2.1]
                simpa using h2.2.trans hBcdim
              simpa [zaimyFail, rollbackOp] using this
            | ok sessD =>
              dsimp only
              have hD := commitOp_ok hcD
              have hDdim : sessD.current.dim_date = init.dim_date := by
                rw [hD.2, hC.1]
                simpa using h2.1.trans hBdim
              have hDcdim : sessD.committed.dim_date = init.dim_date := by
                rw [hD.1, hC.1]
                simpa using h2.1.trans hBdim
              split
              · simpa using hDcdim
              · cases hcF : commitOp faults (sessMod sessD (fun c => { c with daily_loan_balances := aggregateRepaid c.daily_loan_balances st2.processed_date_ids })) with
                | error e => simpa [zaimyFail, rollbackOp, sessMod] using hDcdim
                | ok sessF =>
                  dsimp only
                  have hF := commitOp_ok hcF
                  simpa [hF.1, sessMod] using hDdim
  · intro today st r h
    unfold zaimyStep2
    dsimp only
    cases hl : st.sess.current.loans.find?
        (fun L => L.source_loan_id == pyStr (zamGet r "ID" PyVal.none)) with
    | none => rfl
    | some current_loan =>
      dsimp only
      rw [h]
  · intro faults now idx st r h
    unfold zaimyStep1
    dsimp only
    cases hb : buildLoanData r (pyStr (zamGet r "ID" PyVal.none)) now with
    | error e => rfl
    | ok ld =>
      dsimp only
      have hup : zaimyUpsert st (pyStr (zamGet r "ID" PyVal.none)) ld = .error () := by
        unfold zaimyUpsert
        rw [h, loanInit_typeError]
      rw [hup]

/-- C9 counterexample: a new-loan record on an empty warehouse (no
`DimDate` row for the date): the `DailyLoanBalance` upsert is indeed
skipped and no date row is created, but the Loan row is NOT created and
the error counter IS incremented (by the constructor `TypeError`), contra
the claim. -/
theorem claim_C9_counterexample :
    resC9.store.loans = [] ∧ resC9.meta.errors_count = 1 ∧
    resC9.store.dim_date = [] ∧ resC9.store.daily_loan_balances = [] ∧
    resC9.meta.isError = false :=
  ⟨by decide, by decide, by decide, by decide, by decide⟩

/-- Witness for C9 amended: the date dimension is unchanged on the
concrete C9 run, a concrete `DailyLoanBalance` step with no date row is a
silent skip, and a concrete new-loan step only counts an error. -/
theorem claim_C9_witness :
    (process_zaimy emptyStore [recLoan5] day0 5 noFaults).store.dim_date = emptyStore.dim_date ∧
    zaimyStep2 day0 ⟨⟨storeC1, storeC1, 2⟩, [], 0⟩ recLoan7 = ⟨⟨storeC1, storeC1, 2⟩, [], 0⟩ ∧
    zaimyStep1 noFaults 5 0 ⟨⟨emptyStore, emptyStore, 0⟩, [], 0, 0, 0, 0⟩ recLoan5
      = { (⟨⟨emptyStore, emptyStore, 0⟩, [], 0, 0, 0, 0⟩ : ZaimyLoop) with errors_count := 1 } :=
  ⟨claim_C9_amended.1 emptyStore [recLoan5] day0 5 noFaults,
   claim_C9_amended.2.1 day0 ⟨⟨storeC1, storeC1, 2⟩, [], 0⟩ recLoan7 (by decide),
   claim_C9_amended.2.2 noFaults 5 0 ⟨⟨emptyStore, emptyStore, 0⟩, [], 0, 0, 0, 0⟩ recLoan5
     (by decide)⟩

/-!  C5: the total-repaid aggregation. -/

/-- A row-wise transformation preserving `date_id` and `current_debt_byn`
preserves every per-date debt sum. -/
theorem debtSum_map (f : DailyLoanBalanceRow → DailyLoanBalanceRow)
    (hf : ∀ b, (f b).date_id = b.date_id ∧ (f b).current_debt_byn = b.current_debt_byn)
    (l : List DailyLoanBalanceRow) (d : Int) :
    debtSum (l.map f) d = debtSum l d := by
  have hlist : ((l.map f).filter (fun b => b.date_id == d)).map (fun b => b.current_debt_byn)
      = (l.filter (fun b => b.date_id == d)).map (fun b => b.current_debt_byn) := by
    induction l with
    | nil => rfl
    | cons b l ih =>
      simp only [List.map_cons, List.filter_cons, (hf b).1]
      by_cases hd : (b.date_id == d) = true
      · simp [hd, (hf b).2, ih]
      · simp [hd, ih]
  unfold debtSum
  rw [hlist]

/-- The bulk `total_repaid_byn` update leaves every debt sum intact. -/
theorem debtSum_updateRepaid (l : List DailyLoanBalanceRow) (d : Int) (v : ℚ) (d2 : Int) :
    debtSum (updateRepaid l d v) d2 = debtSum l d2 := by
  unfold updateRepaid
  exact debtSum_map _ (fun b => by by_cases h : (b.date_id == d) = true <;> simp [h]) l d2

/-- Closed form of the aggregation loop: every fact row of a processed
date receives the (invariant) debt sum of its date, all other rows are
untouched. -/
theorem aggregateRepaid_eq (ds : List Int) (l : List DailyLoanBalanceRow) :
    aggregateRepaid l ds = l.map (fun b =>
      if ds.contains b.date_id then { b with total_repaid_byn := debtSum l b.date_id }
      else b) := by
  induction ds generalizing l with
  | nil =>
    simp only [aggregateRepaid, List.contains_nil, Bool.false_eq_true, if_false]
    exact (List.map_id' l).symm
  | cons d ds ih =>
    show aggregateRepaid (updateRepaid l d (debtSum l d)) ds = _
    rw [ih]
    simp only [debtSum_updateRepaid]
    unfold updateRepaid
    rw [List.map_map]
    refine List.map_congr_left ?_
    intro b _
    simp only [Function.comp_apply, List.contains_cons]
    by_cases h1 : (b.date_id == d) = true
    · have hbd : b.date_id = d := by simpa using h1
      by_cases h2 : ds.contains b.date_id = true
      · simp [h1, h2, hbd]
      · simp [h1, h2, hbd]
    · by_cases h2 : ds.contains b.date_id = true
      · simp [h1, h2]
      · simp [h1, h2]

/-- The aggregation loop leaves every debt sum intact. -/
theorem debtSum_aggregateRepaid (l : List DailyLoanBalanceRow) (ds : List Int) (d : Int) :
    debtSum (aggregateRepaid l ds) d = debtSum l d := by
  rw [aggregateRepaid_eq]
  exact debtSum_map _
    (fun b => by by_cases h : b.date_id ∈ ds <;> simp [h]) l d

/-- After the aggregation loop, every row of a processed date carries the
cross-row debt sum of its date computed over the final table. -/
theorem aggregateRepaid_spec (l : List DailyLoanBalanceRow) (ds : List Int)
    (row : DailyLoanBalanceRow) (hm : row ∈ aggregateRepaid l ds) (hd : row.date_id ∈ ds) :
    row.total_repaid_byn = debtSum (aggregateRepaid l ds) row.date_id := by
  rw [debtSum_aggregateRepaid]
  rw [aggregateRepaid_eq] at hm
  rcases List.mem_map.1 hm with ⟨b, hb, hfb⟩
  by_cases hc : b.date_id ∈ ds
  · rw [← hfb]
    simp [hc]
  · have hrb : row = b := by
      rw [← hfb]
      simp [hc]
    rw [hrb] at hd
    exact absurd hd hc

/-- C5: after a loan batch completes (no batch-level error), the
`total_repaid_byn` of every `DailyLoanBalance` row of each processed date
equals the sum of `current_debt_byn` over all rows of that same date —
the cross-entity same-day debt sum, not a per-entity repayment. -/
theorem claim_C5_theorem (init : Store) (records : List PRec) (today : PDate) (now : Nat)
    (faults : Nat → Bool) (row : DailyLoanBalanceRow) :
    (process_zaimy init records today now faults).meta.isError = false →
    row ∈ (process_zaimy init records today now faults).store.daily_loan_balances →
    row.date_id ∈ (process_zaimy init records today now faults).processed_date_ids →
    row.total_repaid_byn
      = debtSum (process_zaimy init records today now faults).store.daily_loan_balances
          row.date_id := by
  unfold process_zaimy
  cases hemp : records.isEmpty with
  | true =>
    intro _ _ hd
    simp at hd
  | false =>
    simp only [Bool.false_eq_true, if_false]
    set stA := zaimyLoop1 faults now records 0 ⟨⟨init, init, 0⟩, [], 0, 0, 0, 0⟩ with hstA
    cases hfA : flushOp faults stA.sess with
    | error e =>
      intro _ _ hd
      simp [zaimyFail] at hd
    | ok sessA =>
      dsimp only
      cases hcB : commitOp faults sessA with
      | error e =>
        intro _ _ hd
        simp [zaimyFail] at hd
      | ok sessB =>
        dsimp only
        set st2 := zaimyLoop2 today records ⟨sessB, [], stA.errors_count⟩ with hst2
        cases hfC : flushOp faults st2.sess with
        | error e =>
          intro _ _ hd
          simp [zaimyFail] at hd
        | ok sessC =>
          dsimp only
          cases hcD : commitOp faults sessC with
          | error e =>
            intro _ _ hd
            simp [zaimyFail] at hd
          | ok sessD =>
            dsimp only
            have hD := commitOp_ok hcD
            cases hie : st2.processed_date_ids.isEmpty with
            | true =>
              simp only [hie, if_true]
              intro _ _ hd
              rw [List.isEmpty_iff.mp hie] at hd
              simp at hd
            | false =>
              simp only [hie, Bool.false_eq_true, if_false]
              cases hcF : commitOp faults (sessMod sessD (fun c => { c with daily_loan_balances := aggregateRepaid c.daily_loan_balances st2.processed_date_ids })) with
              | error e =>
                intro _ _ hd
                simp [zaimyFail] at hd
              | ok sessF =>
                dsimp only
                have hF := commitOp_ok hcF
                intro _ hm hd
                rw [hF.1] at hm ⊢
                simp only [sessMod] at hm ⊢
                exact aggregateRepaid_spec _ _ _ hm hd

/-- Witness for C5: a loan with debt 50 processed against a warehouse
holding the matching loan and the day's date row: the single fact row's
`total_repaid_byn` is 50, the day's debt sum. -/
theorem claim_C5_witness :
    resC5.meta.isError = false ∧
    (⟨1, 20261012, 50, 50⟩ : DailyLoanBalanceRow) ∈ resC5.store.daily_loan_balances ∧
    (20261012 : Int) ∈ resC5.processed_date_ids ∧
    (50 : ℚ) = debtSum resC5.store.daily_loan_balances 20261012 :=
  ⟨by decide, by decide, by decide,
   claim_C5_theorem storeC5 [recLoan50] day0 5 noFaults ⟨1, 20261012, 50, 50⟩
     (by decide) (by decide) (by decide)⟩

/-!  C1: batch atomicity. -/

/-- A successful account reconciliation step preserves the durable state
and the in-memory record list. -/
theorem bankAccountPhase_ok (faults : Nat → Bool) (st : BankLoop) (t : TRec) (st2 : BankLoop)
    (h : bankAccountPhase faults st t = .ok st2) :
    st2.sess.committed = st.sess.committed ∧ st2.processed = st.processed := by
  simp only [bankAccountPhase] at h
  split at h
  · split at h
    · cases h
    · rename_i sess2 hf
      cases h
      exact ⟨(flushOp_ok hf).2.1.trans rfl, rfl⟩
  · split at h
    · cases h
      exact ⟨rfl, rfl⟩
    · cases h
      exact ⟨rfl, rfl⟩

/-- A caught account-phase failure preserves the durable state and the
in-memory record list as well. -/
theorem bankAccountPhase_err (faults : Nat → Bool) (st : BankLoop) (t : TRec) (st2 : BankLoop)
    (h : bankAccountPhase faults st t = .error st2) :
    st2.sess.committed = st.sess.committed ∧ st2.processed = st.processed := by
  simp only [bankAccountPhase] at h
  split at h
  · split at h
    · cases h
      exact ⟨rfl, rfl⟩
    · cases h
  · split at h
    · cases h
    · cases h

/-- A non-aborting bank step preserves the durable state and extends the
in-memory record list by exactly the record's transform. -/
theorem bankStep_ok (faults : Nat → Bool) (date_id : Int) (pds : String) (idx : Nat)
    (st : BankLoop) (r : PRec) (st2 : BankLoop)
    (h : bankStep faults date_id pds idx st r = .ok st2) :
    st2.sess.committed = st.sess.committed ∧
    st2.processed = st.processed ++ bankStepAppend pds r := by
  unfold bankStep at h
  unfold bankStepAppend
  cases ht : bankTransform pds r with
  | error e =>
    rw [ht] at h
    cases h
  | ok o =>
    rw [ht] at h
    cases o with
    | none =>
      cases h
      exact ⟨rfl, by simp⟩
    | some t =>
      dsimp only at h
      cases hap : bankAccountPhase faults { st with processed := st.processed ++ [t] } t with
      | error stA =>
        rw [hap] at h
        cases h
        have hp := bankAccountPhase_err faults _ t _ hap
        exact ⟨hp.1, hp.2⟩
      | ok stB =>
        rw [hap] at h
        dsimp only at h
        cases h
        have hp := bankAccountPhase_ok faults _ t stB hap
        have hb := bankBalancePhase_pres date_id pds stB t
        have hf := bankMaybeFlush_pres faults idx (bankBalancePhase date_id pds stB t)
        constructor
        · rw [hf.2.1, hb.2.1, hp.1]
        · rw [hf.2.2.2, hb.2.2.2, hp.2]

/-- A batch-aborting bank step leaves the loop state untouched and stems
from an uncaught transformation exception. -/
theorem bankStep_err (faults : Nat → Bool) (date_id : Int) (pds : String) (idx : Nat)
    (st : BankLoop) (r : PRec) (e : PErr) (st2 : BankLoop)
    (h : bankStep faults date_id pds idx st r = .error (e, st2)) :
    st2 = st ∧ bankTransform pds r = .error e := by
  unfold bankStep at h
  cases ht : bankTransform pds r with
  | error e2 =>
    rw [ht] at h
    dsimp only at h
    cases h
    exact ⟨rfl, rfl⟩
  | ok o =>
    rw [ht] at h
    cases o with
    | none => cases h
    | some t =>
      dsimp only at h
      cases hap : bankAccountPhase faults { st with processed := st.processed ++ [t] } t with
      | error stA =>
        rw [hap] at h
        cases h
      | ok stB =>
        rw [hap] at h
        dsimp only at h
        cases h

/-- A completed bank loop preserves the durable state and accumulates
exactly the transforms of its records. -/
theorem bankLoop_ok (faults : Nat → Bool) (date_id : Int) (pds : String)
    (rs : List PRec) (idx : Nat) (st : BankLoop) (st2 : BankLoop)
    (h : bankLoop faults date_id pds rs idx st = .ok st2) :
    st2.sess.committed = st.sess.committed ∧
    st2.processed = st.processed ++ bankTransformsPrefix pds rs := by
  induction rs generalizing idx st with
  | nil =>
    cases h
    exact ⟨rfl, by simp [bankTransformsPrefix]⟩
  | cons r rs ih =>
    unfold bankLoop at h
    cases hs : bankStep faults date_id pds idx st r with
    | error p =>
      rw [hs] at h
      cases h
    | ok stm =>
      rw [hs] at h
      dsimp only at h
      have hstep := bankStep_ok faults date_id pds idx st r stm hs
      have hrec := ih (idx + 1) stm h
      refine ⟨hrec.1.trans hstep.1, ?_⟩
      rw [hrec.2, hstep.2]
      unfold bankStepAppend
      cases ht : bankTransform pds r with
      | error e =>
        unfold bankStep at hs
        rw [ht] at hs
        cases hs
      | ok o =>
        cases o with
        | none => simp [bankTransformsPrefix, ht]
        | some t => simp [bankTransformsPrefix, ht]

/-- An aborted bank loop preserves the durable state and has accumulated
the transforms of a prefix of its records. -/
theorem bankLoop_err (faults : Nat → Bool) (date_id : Int) (pds : String)
    (rs : List PRec) (idx : Nat) (st : BankLoop) (e : PErr) (st2 : BankLoop)
    (h : bankLoop faults date_id pds rs idx st = .error (e, st2)) :
    st2.sess.committed = st.sess.committed ∧
    ∃ k, k ≤ rs.length ∧
      st2.processed = st.processed ++ bankTransformsPrefix pds (rs.take k) := by
  induction rs generalizing idx st with
  | nil => cases h
  | cons r rs ih =>
    unfold bankLoop at h
    cases hs : bankStep faults date_id pds idx st r with
    | error p =>
      obtain ⟨e2, stE⟩ := p
      rw [hs] at h
      dsimp only at h
      cases h
      have hse := bankStep_err faults date_id pds idx st r _ _ hs
      refine ⟨by rw [hse.1], 0, Nat.zero_le _, ?_⟩
      rw [hse.1]
      simp [bankTransformsPrefix]
    | ok stm =>
      rw [hs] at h
      dsimp only at h
      have hstep := bankStep_ok faults date_id pds idx st r stm hs
      have hrec := ih (idx + 1) stm h
      obtain ⟨k, hk, hpro⟩ := hrec.2
      refine ⟨hrec.1.trans hstep.1, k + 1, Nat.succ_le_succ hk, ?_⟩
      rw [hpro, hstep.2]
      unfold bankStepAppend
      cases ht : bankTransform pds r with
      | error e2 =>
        unfold bankStep at hs
        rw [ht] at hs
        cases hs
      | ok o =>
        cases o with
        | none => simp [List.take_succ_cons, bankTransformsPrefix, ht]
        | some t => simp [List.take_succ_cons, bankTransformsPrefix, ht]

/-- Helper for `summary_committed`: the final flush-and-report step of
the summary calculator preserves any committed state its input had. -/
theorem summary_tail (faults : Nat → Bool) (sess0 s1 : Session)
    (hc : s1.committed = sess0.committed) (p : ℚ × Nat) :
    (match flushOp faults s1 with
     | .error _ => (s1, (Option.none : Option (ℚ × Nat)))
     | .ok sess2 => (sess2, some p)).1.committed = sess0.committed := by
  cases hf : flushOp faults s1 with
  | error e => exact hc
  | ok s2 => exact (flushOp_ok hf).2.1.trans hc

/-- The summary calculator never touches the durable state. -/
theorem summary_committed (faults : Nat → Bool) (sess : Session) (date_id : Int) (pds : String) :
    (calculate_and_store_daily_summary faults sess date_id pds).1.committed = sess.committed := by
  unfold calculate_and_store_daily_summary
  dsimp only
  split
  · rfl
  · exact summary_tail faults sess _
      (by cases hfind : sess.current.daily_account_summary.find?
            (fun s => s.date_id == date_id) <;> rfl) _

/-- A loan batch that reports a batch-level error always returns an empty
record list: `zaimy.py`'s exception handler (lines 451-465) builds its
response without the transformed records. -/
theorem zaimy_fail_empty (init : Store) (records : List PRec) (today : PDate)
    (now : Nat) (faults : Nat → Bool) :
    (process_zaimy init records today now faults).meta.isError = true →
    (process_zaimy init records today now faults).records = [] := by
  unfold process_zaimy
  cases hemp : records.isEmpty with
  | true =>
    intro _
    simp
  | false =>
    simp only [Bool.false_eq_true, if_false]
    split
    · intro _; rfl
    · split
      · intro _; rfl
      · split
        · intro _; rfl
        · split
          · intro _; rfl
          · split
            · intro h; simp at h
            · split
              · intro _; rfl
              · intro h; simp at h

/-- A failed bank batch is atomic: the durable store is exactly the
initial store, and the returned record list is the in-memory transforms
of the prefix of the batch processed before the failure point. -/
theorem bank_fail_atomic (init : Store) (records : List PRec) (today : PDate)
    (faults : Nat → Bool) :
    (process_bank_accounts init records today faults).meta.success = false →
    (process_bank_accounts init records today faults).store = init ∧
    ∃ k, k ≤ records.length ∧
      (process_bank_accounts init records today faults).records =
        bankTransformsPrefix (fmtDate today) (records.take k) := by
  unfold process_bank_accounts
  cases hemp : records.isEmpty with
  | true =>
    intro _
    refine ⟨rfl, 0, Nat.zero_le _, ?_⟩
    simp [bankTransformsPrefix]
  | false =>
    simp only [Bool.false_eq_true, if_false]
    split
    · intro _
      refine ⟨rfl, 0, Nat.zero_le _, ?_⟩
      simp [bankFailResult, initBankLoop, bankTransformsPrefix]
    · rename_i sess2 hok
      have hc2 : sess2.committed = init := by
        split at hok
        · exact (flushOp_ok hok).2.1
        · cases hok; rfl
      split
      · rename_i e st hloop
        intro _
        have hl := bankLoop_err faults _ _ records 0 _ e st hloop
        obtain ⟨k, hk, hpro⟩ := hl.2
        refine ⟨?_, k, hk, ?_⟩
        · show st.sess.committed = init
          exact hl.1.trans hc2
        · show st.processed = _
          rw [hpro]
          simp [initBankLoop]
      · rename_i st hloop
        have hl := bankLoop_ok faults _ _ records 0 _ st hloop
        split
        · intro _
          refine ⟨?_, records.length, Nat.le_refl _, ?_⟩
          · show st.sess.committed = init
            exact hl.1.trans hc2
          · show st.processed = _
            rw [List.take_length, hl.2]
            simp [initBankLoop]
        · rename_i sessF hfF
          split
          · intro _
            refine ⟨?_, records.length, Nat.le_refl _, ?_⟩
            · show (calculate_and_store_daily_summary faults sessF
                  (yyyymmddNum today) (fmtDate today)).1.committed = init
              rw [summary_committed]
              exact ((flushOp_ok hfF).2.1.trans hl.1).trans hc2
            · show st.processed = _
              rw [List.take_length, hl.2]
              simp [initBankLoop]
          · intro h
            simp at h

/-- C1, corrected: atomicity holds for the bank-account processor — on
any batch-level failure the durable store is unchanged and the caller
receives the records transformed in memory before the failure point — but
not for the loan processor, whose failure response always carries an
EMPTY record list (and whose mid-batch commits can leave partial
persistence behind, as the counterexample shows). -/
theorem claim_C1_amended (initB : Store) (recsB : List PRec) (todayB : PDate)
    (faultsB : Nat → Bool) (initZ : Store) (recsZ : List PRec) (todayZ : PDate)
    (nowZ : Nat) (faultsZ : Nat → Bool)
    (hb : (process_bank_accounts initB recsB todayB faultsB).meta.success = false)
    (hz : (process_zaimy initZ recsZ todayZ nowZ faultsZ).meta.isError = true) :
    ((process_bank_accounts initB recsB todayB faultsB).store = initB ∧
      ∃ k, k ≤ recsB.length ∧
        (process_bank_accounts initB recsB todayB faultsB).records =
          bankTransformsPrefix (fmtDate todayB) (recsB.take k)) ∧
    (process_zaimy initZ recsZ todayZ nowZ faultsZ).records = [] :=
  ⟨bank_fail_atomic initB recsB todayB faultsB hb,
   zaimy_fail_empty initZ recsZ todayZ nowZ faultsZ hz⟩

/-- C1 counterexample: the same one-record loan batch against the same
store, run once fault-free and once with a storage fault striking after
the first mid-batch commit.  The failing run reports a batch-level error,
yet the durable store keeps the committed loan update (contract number
rewritten from "OLD" to "LOAN-7"), and the failure response carries an
empty record list although the fault-free run shows one record had been
transformed in memory.  Both halves of the claim fail for the loan
processor. -/
theorem claim_C1_counterexample :
    resC1ok.records.length = 1 ∧
    resC1fail.meta.isError = true ∧
    resC1fail.store.loans.map (fun l => l.contract_number) = [.str "LOAN-7"] ∧
    storeC1.loans.map (fun l => l.contract_number) = [.str "OLD"] ∧
    resC1fail.records = [] :=
  ⟨by decide, by decide, by decide, by decide, by decide⟩

/-- Witness for the amended C1: a bank batch aborted by an unparsable
balance leaves the store untouched and returns the (empty) transformed
prefix, and the faulted loan batch returns no records. -/
theorem claim_C1_witness :
    resC1bank.store = emptyStore ∧
    (∃ k, k ≤ ([recBadC1] : List PRec).length ∧
       resC1bank.records = bankTransformsPrefix (fmtDate day0) ([recBadC1].take k)) ∧
    resC1fail.records = [] := by
  have h := claim_C1_amended emptyStore [recBadC1] day0 noFaults
    storeC1 [recLoan7] day0 5 (fun n => n == 2) (by decide) (by decide)
  exact ⟨h.1.1, h.1.2, h.2⟩

end FileReceiver
